import Mathlib

/-!
# SimpleOpenGLRender: a shallow embedding of `src/renderer/main.cpp`

The program is one translation unit: `CompileShader`, `LinkShaders`, `run` and `main`.
Every call it makes into GLFW, GLEW, OpenGL, the C++ runtime clock and `std::this_thread`
is recorded, in order, in a trace (`GLState.calls`), and the part of the OpenGL object model
those calls act on (shader and program objects, attachments, buffer objects, vertex
attribute slots) is kept as explicit state.  What the graphics driver, the windowing system,
the math library and the clock answer is not in the repository; it is an input (`Env`).

32-bit `float` values are exact rationals, and every float operation rounds its exact result
with `roundF32` (IEEE-754 binary32, round to nearest, ties to even).
-/

namespace SimpleOpenGLRender

/-! ## Machine types and header constants -/

/-- The type `GLuint`: an object name handed out by the driver. -/
abbrev GLuint := Nat
/-- The types `GLint` and `int`. -/
abbrev GLint := Int
/-- The type `GLenum`. -/
abbrev GLenum := Nat

def GL_FALSE : GLint := 0
def GL_TRUE : GLint := 1
def GL_COMPILE_STATUS : GLenum := 0x8B81
def GL_LINK_STATUS : GLenum := 0x8B82
def GL_INFO_LOG_LENGTH : GLenum := 0x8B84
def GL_VERTEX_SHADER : GLenum := 0x8B31
def GL_FRAGMENT_SHADER : GLenum := 0x8B30
def GL_ARRAY_BUFFER : GLenum := 0x8892
def GL_STATIC_DRAW : GLenum := 0x88E4
def GL_TRIANGLES : GLenum := 0x0004
def GL_FLOAT : GLenum := 0x1406
def GL_DEPTH_TEST : GLenum := 0x0B71
def GL_LESS : GLenum := 0x0201
def GL_COLOR_BUFFER_BIT : Nat := 0x4000
def GL_DEPTH_BUFFER_BIT : Nat := 0x0100
def GLEW_OK : GLenum := 0
def GLFW_SAMPLES : Nat := 0x0002100D
def GLFW_CONTEXT_VERSION_MAJOR : Nat := 0x00022002
def GLFW_CONTEXT_VERSION_MINOR : Nat := 0x00022003
def GLFW_OPENGL_PROFILE : Nat := 0x00022008
def GLFW_OPENGL_CORE_PROFILE : Nat := 0x00032001
def GLFW_STICKY_KEYS : Nat := 0x00033002
def GLFW_KEY_ESCAPE : Int := 256
def GLFW_PRESS : Int := 1
def EXIT_SUCCESS : Int := 0
def EXIT_FAILURE : Int := 1

/-- The character `'\0'`. -/
def NUL : Char := Char.ofNat 0

/-! ## binary32 arithmetic -/

/-- Nearest integer to a rational, ties going to the even neighbour. -/
def roundHalfEven (y : ℚ) : ℤ :=
  let f := ⌊y⌋
  let d := y - f
  if d < 1 / 2 then f
  else if 1 / 2 < d then f + 1
  else if f % 2 = 0 then f else f + 1

/-- IEEE-754 binary32 rounding (round to nearest, ties to even) of an exact result: the
significand has 24 bits, so the spacing at `x` is `2 ^ (e - 23)` with `e = ⌊log2 |x|⌋`, and
below the normal range the spacing stays at `2 ^ (-149)`.  Overflow to infinity (beyond
`FLT_MAX`) is not represented; no value of this program comes near it. -/
def roundF32 (x : ℚ) : ℚ :=
  if x = 0 then 0 else
    let e : ℤ := max (Int.log 2 |x|) (-126)
    roundHalfEven (x / 2 ^ (e - 23)) * 2 ^ (e - 23)

/-- The function `glm::radians(float)`:
`degrees * static_cast<float>(0.01745329251994329576923690768489)`. -/
def radians (degrees : ℚ) : ℚ :=
  roundF32 (degrees * roundF32 (1745329251994329576923690768489 / 10 ^ 32))

/-! ## The trace of external calls -/

/-- A `glm::vec3`. -/
abbrev Vec3 := ℚ × ℚ × ℚ

/-- A `glm::mat4`, kept as the expression that builds it (no claim depends on its entries). -/
inductive Mat4 where
  | identity
  | lookAt (eye center up : Vec3)
  | perspective (fovy aspect near far : ℚ)
  | scale (m : Mat4) (v : Vec3)
  | rotate (angle : ℚ) (axis : Vec3)
  | translate (m : Mat4) (v : Vec3)
  | mul (a b : Mat4)
  deriving DecidableEq

/-- One call into GLFW, GLEW, OpenGL or the standard library, with its arguments; calls that
create an object also record the name the driver returned.  The program has one window, so
the window argument is left out. -/
inductive GLCall where
  | glfwSetErrorCallback
  | glfwInit
  | glfwWindowHint (hint value : Nat)
  | glfwCreateWindow (width height : Nat) (title : String)
  | glfwMakeContextCurrent
  | glewInit
  | glEnable (cap : GLenum)
  | glDepthFunc (func : GLenum)
  | glGenVertexArrays (array : GLuint)
  | glBindVertexArray (array : GLuint)
  | glCreateProgram (program : GLuint)
  | glCreateShader (type : GLenum) (shader : GLuint)
  | glShaderSource (shader : GLuint) (source : String)
  | glCompileShader (shader : GLuint)
  | glGetShaderiv (shader : GLuint) (pname : GLenum)
  | glGetShaderInfoLog (shader : GLuint) (maxLength : Nat)
  | glAttachShader (program shader : GLuint)
  | glLinkProgram (program : GLuint)
  | glGetProgramiv (program : GLuint) (pname : GLenum)
  | glGetProgramInfoLog (program : GLuint) (maxLength : Nat)
  | glDetachShader (program shader : GLuint)
  | glDeleteShader (shader : GLuint)
  | glGetUniformLocation (program : GLuint) (name : String)
  | glGenBuffers (buffer : GLuint)
  | glBindBuffer (target : GLenum) (buffer : GLuint)
  | glBufferData (target : GLenum) (size : Nat) (data : List ℚ) (usage : GLenum)
  | glClearColor (r g b a : ℚ)
  | glfwSetInputMode (mode : Nat) (value : Int)
  | glfwWindowShouldClose
  | glfwGetKey (key : Int)
  | glClear (mask : Nat)
  | glUseProgram (program : GLuint)
  | glEnableVertexAttribArray (index : Nat)
  | glVertexAttribPointer (index : Nat) (size : Nat) (type : GLenum) (normalized : GLint)
      (stride : Nat)
  | glUniformMatrix4fv (location : GLint) (count : Nat) (transpose : GLint) (value : Mat4)
  | glDrawArrays (mode : GLenum) (first : Nat) (count : Nat)
  | glDisableVertexAttribArray (index : Nat)
  | glfwSwapBuffers
  | sleep_for (nanoseconds : Int)
  | glfwPollEvents
  | glDeleteBuffers (buffer : GLuint)
  | glDeleteProgram (program : GLuint)
  | glDeleteVertexArrays (array : GLuint)
  | glfwTerminate
  deriving DecidableEq

/-! ## Driver answers and the object model -/

/-- What the driver holds for a shader or program after a compile or link: the status flag
(`GL_COMPILE_STATUS` / `GL_LINK_STATUS`), the value it reports for `GL_INFO_LOG_LENGTH`
(never negative), and the characters `glGet*InfoLog` delivers (without the terminator). -/
structure InfoResult where
  status : GLint
  logLength : Nat
  log : List Char
  deriving DecidableEq

/-- A shader stage as the linker sees it. -/
structure Stage where
  type : GLenum
  source : String
  info : InfoResult
  deriving DecidableEq

/-- What one `glDrawArrays` call drew with: its arguments and, for every enabled attribute
slot, the buffer the slot reads from. -/
structure DrawRecord where
  mode : GLenum
  first : Nat
  count : Nat
  attribs : List (Nat × GLuint)
  deriving DecidableEq

/-- The observable state: the trace and the OpenGL / GLFW objects the program touches. -/
structure GLState where
  calls : List GLCall
  glfwInitialised : Bool
  windowOpen : Bool
  contextCurrent : Bool
  nextObject : GLuint
  shaders : List GLuint
  flaggedShaders : List GLuint
  shaderType : List (GLuint × GLenum)
  shaderSource : List (GLuint × String)
  shaderInfo : List (GLuint × InfoResult)
  programs : List GLuint
  flaggedPrograms : List GLuint
  programInfo : List (GLuint × InfoResult)
  attached : List (GLuint × GLuint)
  currentProgram : GLuint
  nextVertexArray : GLuint
  vertexArrays : List GLuint
  boundVertexArray : GLuint
  nextBuffer : GLuint
  buffers : List GLuint
  arrayBuffer : GLuint
  bufferData : List (GLuint × List ℚ)
  enabledAttribs : List Nat
  attribBuffer : List (Nat × GLuint)
  draws : List DrawRecord
  slept : List Int

/-- The state a fresh process starts in. -/
def GLState.initial : GLState :=
  { calls := [], glfwInitialised := false, windowOpen := false, contextCurrent := false,
    nextObject := 1, shaders := [], flaggedShaders := [], shaderType := [], shaderSource := [],
    shaderInfo := [], programs := [], flaggedPrograms := [], programInfo := [], attached := [],
    currentProgram := 0, nextVertexArray := 1, vertexArrays := [], boundVertexArray := 0,
    nextBuffer := 1, buffers := [], arrayBuffer := 0, bufferData := [], enabledAttribs := [],
    attribBuffer := [], draws := [], slept := [] }

/-- What the loop observes in one pass: the two values its condition reads, and the two
`system_clock::now()` readings of the body, in clock ticks (nanoseconds). -/
structure FrameInput where
  windowShouldClose : Int
  escapeKey : Int
  frameStartTime : Int
  frameEndTime : Int
  deriving DecidableEq

/-- Everything the program is told from outside. -/
structure Env where
  /-- The error GLFW reports (through the error callback) from `glfwInit`, if any. -/
  glfwInitError : Option (Int × String)
  /-- The error GLFW reports from `glfwCreateWindow`, if any. -/
  glfwCreateWindowError : Option (Int × String)
  glewInitResult : GLenum
  glewGetErrorString : GLenum → String
  /-- The driver compiling a stage of the given type from the given source. -/
  compile : GLenum → String → InfoResult
  /-- The driver linking the stages attached to a program. -/
  link : List Stage → InfoResult
  uniformLocation : GLuint → String → GLint
  /-- The functions `std::sin(float)` and `std::cos(float)`. -/
  sin : ℚ → ℚ
  cos : ℚ → ℚ
  /-- The observations of the successive passes of the render loop; once they are used up
  the window reports that it should close. -/
  frames : List FrameInput

/-! ## OpenGL calls -/

def record (c : GLCall) (st : GLState) : GLState :=
  { st with calls := st.calls ++ [c] }

def glCreateProgram (st : GLState) : GLuint × GLState :=
  let id := st.nextObject
  (id, { record (.glCreateProgram id) st with
          nextObject := id + 1, programs := st.programs ++ [id] })

def glCreateShader (type : GLenum) (st : GLState) : GLuint × GLState :=
  let id := st.nextObject
  (id, { record (.glCreateShader type id) st with
          nextObject := id + 1, shaders := st.shaders ++ [id],
          shaderType := (id, type) :: st.shaderType })

/-- With `count = 1` and `length = nullptr`: the source becomes the given text.  An invalid
name raises a GL error and changes nothing. -/
def glShaderSource (shader : GLuint) (source : String) (st : GLState) : GLState :=
  let st := record (.glShaderSource shader source) st
  if shader ∈ st.shaders then { st with shaderSource := (shader, source) :: st.shaderSource }
  else st

def glCompileShader (env : Env) (shader : GLuint) (st : GLState) : GLState :=
  let st := record (.glCompileShader shader) st
  if shader ∈ st.shaders then
    { st with shaderInfo :=
        (shader, env.compile ((st.shaderType.lookup shader).getD 0)
                   ((st.shaderSource.lookup shader).getD "")) :: st.shaderInfo }
  else st

/-- The info of a live shader; a shader that was never compiled has status `GL_FALSE` and no
log. -/
def shaderInfoOf (st : GLState) (shader : GLuint) : Option InfoResult :=
  if shader ∈ st.shaders then some ((st.shaderInfo.lookup shader).getD ⟨GL_FALSE, 0, []⟩)
  else none

def programInfoOf (st : GLState) (program : GLuint) : Option InfoResult :=
  if program ∈ st.programs then some ((st.programInfo.lookup program).getD ⟨GL_FALSE, 0, []⟩)
  else none

/-- The query `glGetShaderiv(shader, pname, &out)`; `out` is the value the variable holds
before the call, which an invalid name or parameter leaves in place. -/
def glGetShaderiv (shader : GLuint) (pname : GLenum) (out : GLint) (st : GLState) :
    GLint × GLState :=
  let st := record (.glGetShaderiv shader pname) st
  match shaderInfoOf st shader with
  | some info =>
    if pname = GL_COMPILE_STATUS then (info.status, st)
    else if pname = GL_INFO_LOG_LENGTH then ((info.logLength : Int), st)
    else (out, st)
  | none => (out, st)

/-- What `glGet*InfoLog(name, maxLength, nullptr, buffer)` leaves in `buffer`: at most
`maxLength - 1` characters of the log, then the terminator, the rest untouched. -/
def writeInfoLog (log : List Char) (maxLength : Nat) (buffer : List Char) : List Char :=
  if maxLength = 0 then buffer
  else
    let written := log.take (maxLength - 1)
    written ++ [NUL] ++ buffer.drop (written.length + 1)

def glGetShaderInfoLog (shader : GLuint) (maxLength : Nat) (buffer : List Char)
    (st : GLState) : List Char × GLState :=
  let st := record (.glGetShaderInfoLog shader maxLength) st
  match shaderInfoOf st shader with
  | some info => (writeInfoLog info.log maxLength buffer, st)
  | none => (buffer, st)

/-- Attaching needs a live program and a live shader that is not attached to it yet;
otherwise a GL error is raised and nothing changes. -/
def glAttachShader (program shader : GLuint) (st : GLState) : GLState :=
  let st := record (.glAttachShader program shader) st
  if program ∈ st.programs ∧ shader ∈ st.shaders ∧ (program, shader) ∉ st.attached then
    { st with attached := st.attached ++ [(program, shader)] }
  else st

/-- The stages attached to a program, in attachment order. -/
def stagesOf (st : GLState) (program : GLuint) : List Stage :=
  (st.attached.filter (fun a => a.1 = program)).map (fun a =>
    { type := (st.shaderType.lookup a.2).getD 0,
      source := (st.shaderSource.lookup a.2).getD "",
      info := (st.shaderInfo.lookup a.2).getD ⟨GL_FALSE, 0, []⟩ })

def glLinkProgram (env : Env) (program : GLuint) (st : GLState) : GLState :=
  let st := record (.glLinkProgram program) st
  if program ∈ st.programs then
    { st with programInfo := (program, env.link (stagesOf st program)) :: st.programInfo }
  else st

def glGetProgramiv (program : GLuint) (pname : GLenum) (out : GLint) (st : GLState) :
    GLint × GLState :=
  let st := record (.glGetProgramiv program pname) st
  match programInfoOf st program with
  | some info =>
    if pname = GL_LINK_STATUS then (info.status, st)
    else if pname = GL_INFO_LOG_LENGTH then ((info.logLength : Int), st)
    else (out, st)
  | none => (out, st)

def glGetProgramInfoLog (program : GLuint) (maxLength : Nat) (buffer : List Char)
    (st : GLState) : List Char × GLState :=
  let st := record (.glGetProgramInfoLog program maxLength) st
  match programInfoOf st program with
  | some info => (writeInfoLog info.log maxLength buffer, st)
  | none => (buffer, st)

/-- Is the shader attached to some program? -/
def isAttached (st : GLState) (shader : GLuint) : Bool :=
  st.attached.any (fun a => a.2 = shader)

/-- Detaching a shader that is attached to the program removes the attachment; a shader that
was flagged for deletion goes away with its last attachment.  Otherwise a GL error is raised
and nothing changes. -/
def glDetachShader (program shader : GLuint) (st : GLState) : GLState :=
  let st := record (.glDetachShader program shader) st
  if (program, shader) ∈ st.attached then
    let st := { st with attached := st.attached.filter (fun a => a ≠ (program, shader)) }
    if shader ∈ st.flaggedShaders ∧ isAttached st shader = false then
      { st with shaders := st.shaders.filter (fun s => s ≠ shader),
                flaggedShaders := st.flaggedShaders.filter (fun s => s ≠ shader) }
    else st
  else st

/-- Deleting a live shader frees it at once unless it is attached to a program, in which case
it is only flagged.  A name that is not a shader changes nothing. -/
def glDeleteShader (shader : GLuint) (st : GLState) : GLState :=
  let st := record (.glDeleteShader shader) st
  if shader ∈ st.shaders then
    if isAttached st shader then { st with flaggedShaders := shader :: st.flaggedShaders }
    else { st with shaders := st.shaders.filter (fun s => s ≠ shader) }
  else st

/-! ## Exceptions -/

/-- The text `std::exception::what()` returns for a `std::runtime_error` built from the given
`std::string`: a C string, so it ends before the first `'\0'`. -/
def what (what_arg : String) : String :=
  String.mk (what_arg.data.takeWhile (fun c => c ≠ NUL))

/-- The `what_arg` of the exception `GLFWErrorHandler` throws; it always throws. -/
def GLFWErrorHandler (errorCode : Int) (description : String) : String :=
  "GLFW Error (" ++ toString errorCode ++ "): " ++ description

/-! ## `CompileShader` and `LinkShaders` -/

/-- The function `CompileShader(shaderID, shaderCode)`: the result is `.error what_arg` when it
throws `std::runtime_error(what_arg)`. -/
def CompileShader (env : Env) (shaderID : GLuint) (shaderCode : String) (st : GLState) :
    Except String Unit × GLState :=
  let st := glShaderSource shaderID shaderCode st
  let st := glCompileShader env shaderID st
  let result : GLint := GL_FALSE
  let logLength : Int := 0
  let (result, st) := glGetShaderiv shaderID GL_COMPILE_STATUS result st
  let (logLength, st) := glGetShaderiv shaderID GL_INFO_LOG_LENGTH logLength st
  if logLength ≠ 0 then
    let errorMessage := List.replicate logLength.toNat NUL
    let (errorMessage, st) := glGetShaderInfoLog shaderID logLength.toNat errorMessage st
    (.error ("Shader Compilation Failed (" ++ toString result ++ "): "
              ++ String.mk errorMessage), st)
  else (.ok (), st)

/-- The first loop of `LinkShaders`. -/
def attachAll (programID : GLuint) (shaderIDs : List GLuint) (st : GLState) : GLState :=
  shaderIDs.foldl (fun st shaderID => glAttachShader programID shaderID st) st

/-- The last loop of `LinkShaders`. -/
def detachDeleteAll (programID : GLuint) (shaderIDs : List GLuint) (st : GLState) : GLState :=
  shaderIDs.foldl
    (fun st shaderID => glDeleteShader shaderID (glDetachShader programID shaderID st)) st

/-- The function `LinkShaders<N>(programID, shaderIDs)`; the `std::array<GLuint, N>` is a
list. -/
def LinkShaders (env : Env) (programID : GLuint) (shaderIDs : List GLuint) (st : GLState) :
    Except String Unit × GLState :=
  let st := attachAll programID shaderIDs st
  let st := glLinkProgram env programID st
  let result : GLint := GL_FALSE
  let logLength : Int := 0
  let (result, st) := glGetProgramiv programID GL_LINK_STATUS result st
  let (logLength, st) := glGetProgramiv programID GL_INFO_LOG_LENGTH logLength st
  if logLength ≠ 0 then
    let errorMessage := List.replicate logLength.toNat NUL
    let (errorMessage, st) := glGetProgramInfoLog programID logLength.toNat errorMessage st
    (.error ("Program Linking Failed (" ++ toString result ++ "): "
              ++ String.mk errorMessage), st)
  else (.ok (), detachDeleteAll programID shaderIDs st)

/-! ## The remaining calls of `run` -/

def glfwSetErrorCallback (st : GLState) : GLState :=
  record .glfwSetErrorCallback st

/-- When `glfwInit` fails GLFW calls the installed error callback, `GLFWErrorHandler`, whose
exception leaves `run`. -/
def glfwInit (env : Env) (st : GLState) : Except String Unit × GLState :=
  let st := record .glfwInit st
  match env.glfwInitError with
  | some (errorCode, description) => (.error (GLFWErrorHandler errorCode description), st)
  | none => (.ok (), { st with glfwInitialised := true })

def glfwWindowHint (hint value : Nat) (st : GLState) : GLState :=
  record (.glfwWindowHint hint value) st

def glfwCreateWindow (env : Env) (width height : Nat) (title : String) (st : GLState) :
    Except String Unit × GLState :=
  let st := record (.glfwCreateWindow width height title) st
  match env.glfwCreateWindowError with
  | some (errorCode, description) => (.error (GLFWErrorHandler errorCode description), st)
  | none => (.ok (), { st with windowOpen := true })

def glfwMakeContextCurrent (st : GLState) : GLState :=
  { record .glfwMakeContextCurrent st with contextCurrent := true }

def glewInit (env : Env) (st : GLState) : GLenum × GLState :=
  (env.glewInitResult, record .glewInit st)

def glEnable (cap : GLenum) (st : GLState) : GLState :=
  record (.glEnable cap) st

def glDepthFunc (func : GLenum) (st : GLState) : GLState :=
  record (.glDepthFunc func) st

def glGenVertexArrays (st : GLState) : GLuint × GLState :=
  let id := st.nextVertexArray
  (id, { record (.glGenVertexArrays id) st with
          nextVertexArray := id + 1, vertexArrays := st.vertexArrays ++ [id] })

def glBindVertexArray (array : GLuint) (st : GLState) : GLState :=
  let st := record (.glBindVertexArray array) st
  { st with boundVertexArray :=
      if array = 0 ∨ array ∈ st.vertexArrays then array else st.boundVertexArray }

def glGetUniformLocation (env : Env) (program : GLuint) (name : String) (st : GLState) :
    GLint × GLState :=
  (env.uniformLocation program name, record (.glGetUniformLocation program name) st)

def glGenBuffers (st : GLState) : GLuint × GLState :=
  let id := st.nextBuffer
  (id, { record (.glGenBuffers id) st with
          nextBuffer := id + 1, buffers := st.buffers ++ [id] })

/-- Under the core profile only zero and names from `glGenBuffers` can be bound. -/
def glBindBuffer (target : GLenum) (buffer : GLuint) (st : GLState) : GLState :=
  let st := record (.glBindBuffer target buffer) st
  { st with arrayBuffer :=
      if target = GL_ARRAY_BUFFER ∧ (buffer = 0 ∨ buffer ∈ st.buffers) then buffer
      else st.arrayBuffer }

def glBufferData (target : GLenum) (size : Nat) (data : List ℚ) (usage : GLenum)
    (st : GLState) : GLState :=
  let st := record (.glBufferData target size data usage) st
  { st with bufferData :=
      if target = GL_ARRAY_BUFFER ∧ st.arrayBuffer ≠ 0 then
        (st.arrayBuffer, data) :: st.bufferData
      else st.bufferData }

def glClearColor (r g b a : ℚ) (st : GLState) : GLState :=
  record (.glClearColor r g b a) st

def glfwSetInputMode (mode : Nat) (value : Int) (st : GLState) : GLState :=
  record (.glfwSetInputMode mode value) st

def glfwWindowShouldClose (st : GLState) : GLState :=
  record .glfwWindowShouldClose st

def glfwGetKey (key : Int) (st : GLState) : GLState :=
  record (.glfwGetKey key) st

def glClear (mask : Nat) (st : GLState) : GLState :=
  record (.glClear mask) st

def glUseProgram (program : GLuint) (st : GLState) : GLState :=
  let st := record (.glUseProgram program) st
  { st with currentProgram :=
      if program = 0 ∨ program ∈ st.programs then program else st.currentProgram }

def glEnableVertexAttribArray (index : Nat) (st : GLState) : GLState :=
  let st := record (.glEnableVertexAttribArray index) st
  { st with enabledAttribs :=
      if index ∈ st.enabledAttribs then st.enabledAttribs else st.enabledAttribs ++ [index] }

/-- The slot reads from the buffer bound to `GL_ARRAY_BUFFER` at the time of the call. -/
def glVertexAttribPointer (index size : Nat) (type : GLenum) (normalized : GLint)
    (stride : Nat) (st : GLState) : GLState :=
  let st := record (.glVertexAttribPointer index size type normalized stride) st
  { st with attribBuffer := (index, st.arrayBuffer) :: st.attribBuffer }

def glUniformMatrix4fv (location : GLint) (count : Nat) (transpose : GLint) (value : Mat4)
    (st : GLState) : GLState :=
  record (.glUniformMatrix4fv location count transpose value) st

def glDrawArrays (mode : GLenum) (first count : Nat) (st : GLState) : GLState :=
  let st := record (.glDrawArrays mode first count) st
  { st with draws := st.draws ++
      [{ mode := mode, first := first, count := count,
         attribs := st.enabledAttribs.map (fun i => (i, (st.attribBuffer.lookup i).getD 0)) }] }

def glDisableVertexAttribArray (index : Nat) (st : GLState) : GLState :=
  let st := record (.glDisableVertexAttribArray index) st
  { st with enabledAttribs := st.enabledAttribs.filter (fun i => i ≠ index) }

def glfwSwapBuffers (st : GLState) : GLState :=
  record .glfwSwapBuffers st

/-- The call `std::this_thread::sleep_for` with a duration in nanoseconds. -/
def sleep_for (nanoseconds : Int) (st : GLState) : GLState :=
  { record (.sleep_for nanoseconds) st with slept := st.slept ++ [nanoseconds] }

def glfwPollEvents (st : GLState) : GLState :=
  record .glfwPollEvents st

/-- A name that is not a buffer is ignored; deleting the bound buffer unbinds it. -/
def glDeleteBuffers (buffer : GLuint) (st : GLState) : GLState :=
  let st := record (.glDeleteBuffers buffer) st
  { st with buffers := st.buffers.filter (fun b => b ≠ buffer),
            arrayBuffer := if st.arrayBuffer = buffer then 0 else st.arrayBuffer }

/-- A program that is in use is only flagged; otherwise it goes away, its shaders are
detached, and those of them that were flagged and are attached nowhere else go away too. -/
def glDeleteProgram (program : GLuint) (st : GLState) : GLState :=
  let st := record (.glDeleteProgram program) st
  if program ∈ st.programs then
    if st.currentProgram = program then
      { st with flaggedPrograms := program :: st.flaggedPrograms }
    else
      let st := { st with programs := st.programs.filter (fun p => p ≠ program),
                          attached := st.attached.filter (fun a => a.1 ≠ program) }
      { st with
          shaders := st.shaders.filter
            (fun s => !(decide (s ∈ st.flaggedShaders) && !isAttached st s)),
          flaggedShaders := st.flaggedShaders.filter (fun s => isAttached st s) }
  else st

def glDeleteVertexArrays (array : GLuint) (st : GLState) : GLState :=
  let st := record (.glDeleteVertexArrays array) st
  { st with vertexArrays := st.vertexArrays.filter (fun a => a ≠ array),
            boundVertexArray := if st.boundVertexArray = array ∧ array ∈ st.vertexArrays then 0
                                else st.boundVertexArray }

/-- The call `glfwTerminate` destroys the remaining window and its context. -/
def glfwTerminate (st : GLState) : GLState :=
  { record .glfwTerminate st with
      glfwInitialised := false, windowOpen := false, contextCurrent := false }

/-! ## Constant data of `run` -/

def vertexShaderCode : String :=
  "\n#version 330 core\n\nlayout(location = 0) in vec3 modelSpace;\n" ++
  "layout(location = 1) in vec3 vertexColour;\n\nout vec3 fragmentColour;\n\n" ++
  "uniform mat4 mvp;\n\nvoid main() \x7b\n    gl_Position = mvp * vec4(modelSpace, 1);\n" ++
  "    fragmentColour = vertexColour;\n\x7d\n"

def fragmentShaderCode : String :=
  "\n#version 330 core\n\nin vec3 fragmentColour;\nout vec3 colour;\n\n" ++
  "void main() \x7b\n    colour = fragmentColour;\n\x7d\n"

def windowWidth : Nat := 1920
def windowHeight : Nat := 1080

def pyramidVertexData : List ℚ := [
  1, -1, 0,
  0, -1, 1,
  0, 1, 0,

  1, -1, 0,
  0, -1, -1,
  0, 1, 0,

  0, -1, 1,
  -1, -1, 0,
  0, 1, 0,

  -1, -1, 0,
  0, -1, -1,
  0, 1, 0]

def cubeVertexData : List ℚ := [
  -1, -1, -1,
  -1, -1, 1,
  -1, 1, 1,
  1, 1, -1,
  -1, -1, -1,
  -1, 1, -1,
  1, -1, 1,
  -1, -1, -1,
  1, -1, -1,
  1, 1, -1,
  1, -1, -1,
  -1, -1, -1,
  -1, -1, -1,
  -1, 1, 1,
  -1, 1, -1,
  1, -1, 1,
  -1, -1, 1,
  -1, -1, -1,
  -1, 1, 1,
  -1, -1, 1,
  1, -1, 1,
  1, 1, 1,
  1, -1, -1,
  1, 1, -1,
  1, -1, -1,
  1, 1, 1,
  1, -1, 1,
  1, 1, 1,
  1, 1, -1,
  -1, 1, -1,
  1, 1, 1,
  -1, 1, -1,
  -1, 1, 1,
  1, 1, 1,
  -1, 1, 1,
  1, -1, 1]

/-- The decimal literals of `colourBufferData`, each read as a `float`. -/
def colourBufferData : List ℚ := List.map roundF32 [
  0.583, 0.771, 0.014,
  0.609, 0.115, 0.436,
  0.327, 0.483, 0.844,
  0.822, 0.569, 0.201,
  0.435, 0.602, 0.223,
  0.310, 0.747, 0.185,
  0.597, 0.770, 0.761,
  0.559, 0.436, 0.730,
  0.359, 0.583, 0.152,
  0.483, 0.596, 0.789,
  0.559, 0.861, 0.639,
  0.195, 0.548, 0.859,
  0.014, 0.184, 0.576,
  0.771, 0.328, 0.970,
  0.406, 0.615, 0.116,
  0.676, 0.977, 0.133,
  0.971, 0.572, 0.833,
  0.140, 0.616, 0.489,
  0.997, 0.513, 0.064,
  0.945, 0.719, 0.592,
  0.543, 0.021, 0.978,
  0.279, 0.317, 0.505,
  0.167, 0.620, 0.077,
  0.347, 0.857, 0.137,
  0.055, 0.953, 0.042,
  0.714, 0.505, 0.345,
  0.783, 0.290, 0.734,
  0.722, 0.645, 0.174,
  0.302, 0.455, 0.848,
  0.225, 0.587, 0.040,
  0.517, 0.713, 0.338,
  0.053, 0.959, 0.120,
  0.393, 0.621, 0.362,
  0.673, 0.211, 0.457,
  0.820, 0.883, 0.371,
  0.982, 0.099, 0.879]

/-- The `sizeof` of a `std::array<float, n>`. -/
def sizeofFloats (data : List ℚ) : Nat := 4 * data.length

/-- The constant `std::chrono::milliseconds(16)`, in the nanosecond ticks of `system_clock`. -/
def frameLimit : Int := 16 * 1000000

/-! ## The render loop -/

/-- The local variables of `run` that the loop and the teardown read. -/
structure Locals where
  vertexArrayID : GLuint
  programID : GLuint
  mvpID : GLint
  view : Mat4
  projection : Mat4
  cubeVertex : GLuint
  pyramidVertex : GLuint
  colourBuffer : GLuint

/-- The local `scaleMag = (std::sin(glm::radians(rotationAngle)) * 3.f) + 4`. -/
def scaleMag (env : Env) (rotationAngle : ℚ) : ℚ :=
  roundF32 (roundF32 (env.sin (radians rotationAngle) * 3) + 4)

/-- The local `zMag = (std::cos(glm::radians(rotationAngle)) * 10.f) + 5`. -/
def zMag (env : Env) (rotationAngle : ℚ) : ℚ :=
  roundF32 (roundF32 (env.cos (radians rotationAngle) * 10) + 5)

/-- The body of the `while` loop of `run`: from the value of `rotationAngle` and the state
before the pass to those after it. -/
def frame (env : Env) (l : Locals) (input : FrameInput) (rotationAngle : ℚ) (st : GLState) :
    ℚ × GLState :=
  let frameStartTime := input.frameStartTime
  let st := glClear (GL_COLOR_BUFFER_BIT ||| GL_DEPTH_BUFFER_BIT) st
  let st := glUseProgram l.programID st
  let rotationAngle := roundF32 (rotationAngle + 1)
  let scaleMag := scaleMag env rotationAngle
  let zMag := zMag env rotationAngle
  let scale := Mat4.scale .identity (scaleMag, scaleMag, scaleMag)
  let rotation := Mat4.rotate (radians rotationAngle) (0, 1, 0)
  let cubeTrans := Mat4.translate .identity (10, 0, zMag)
  let pyramidTrans := Mat4.translate .identity (-10, 0, zMag)
  -- the cube
  let mvp := Mat4.mul (.mul l.projection l.view) (.mul (.mul cubeTrans rotation) scale)
  let st := glEnableVertexAttribArray 0 st
  let st := glBindBuffer GL_ARRAY_BUFFER l.cubeVertex st
  let st := glVertexAttribPointer 0 3 GL_FLOAT GL_FALSE 0 st
  let st := glEnableVertexAttribArray 1 st
  let st := glBindBuffer GL_ARRAY_BUFFER l.colourBuffer st
  let st := glVertexAttribPointer 1 3 GL_FLOAT GL_FALSE 0 st
  let st := glUniformMatrix4fv l.mvpID 1 GL_FALSE mvp st
  let st := glDrawArrays GL_TRIANGLES 0 (cubeVertexData.length / 3) st
  let st := glDisableVertexAttribArray 0 st
  let st := glDisableVertexAttribArray 1 st
  -- the pyramid
  let mvp := Mat4.mul (.mul l.projection l.view) (.mul (.mul pyramidTrans rotation) scale)
  let st := glEnableVertexAttribArray 0 st
  let st := glBindBuffer GL_ARRAY_BUFFER l.pyramidVertex st
  let st := glVertexAttribPointer 0 3 GL_FLOAT GL_FALSE 0 st
  let st := glEnableVertexAttribArray 1 st
  let st := glBindBuffer GL_ARRAY_BUFFER l.colourBuffer st
  let st := glVertexAttribPointer 1 3 GL_FLOAT GL_FALSE 0 st
  let st := glUniformMatrix4fv l.mvpID 1 GL_FALSE mvp st
  let st := glDrawArrays GL_TRIANGLES 0 (pyramidVertexData.length / 3) st
  let st := glDisableVertexAttribArray 0 st
  let st := glDisableVertexAttribArray 1 st
  let st := glfwSwapBuffers st
  let frameEndTime := input.frameEndTime
  let frameDuration := frameEndTime - frameStartTime
  let st := if frameDuration < frameLimit then sleep_for (frameLimit - frameDuration) st
            else st
  let st := glfwPollEvents st
  (rotationAngle, st)

/-- The `while` loop of `run`.  Its condition reads `glfwWindowShouldClose` and, only when
that is zero, `glfwGetKey`. -/
def renderLoop (env : Env) (l : Locals) : List FrameInput → ℚ → GLState → ℚ × GLState
  | [], rotationAngle, st => (rotationAngle, glfwWindowShouldClose st)
  | input :: rest, rotationAngle, st =>
    let st := glfwWindowShouldClose st
    if input.windowShouldClose = 0 then
      let st := glfwGetKey GLFW_KEY_ESCAPE st
      if input.escapeKey ≠ GLFW_PRESS then
        let (rotationAngle, st) := frame env l input rotationAngle st
        renderLoop env l rest rotationAngle st
      else (rotationAngle, st)
    else (rotationAngle, st)

/-- The number of passes the loop makes on the given observations. -/
def iterations : List FrameInput → Nat
  | [] => 0
  | input :: rest =>
    if input.windowShouldClose = 0 ∧ input.escapeKey ≠ GLFW_PRESS then iterations rest + 1
    else 0

/-! ## `run` and `main` -/

/-- The statements of `run` after the loop. -/
def teardown (l : Locals) (st : GLState) : GLState :=
  let st := glDeleteBuffers l.cubeVertex st
  let st := glDeleteBuffers l.pyramidVertex st
  let st := glDeleteBuffers l.colourBuffer st
  let st := glDeleteProgram l.programID st
  let st := glDeleteVertexArrays l.vertexArrayID st
  glfwTerminate st

/-- The statements of `run` before the loop: on success, the local variables and the state
the loop starts from.  The two stores `glewExperimental = GL_TRUE` write a GLEW global; they
are not calls and leave no trace. -/
def setup (env : Env) : Except String Locals × GLState :=
  let st := GLState.initial
  let st := glfwSetErrorCallback st
  match glfwInit env st with
  | (.error e, st) => (.error e, st)
  | (.ok (), st) =>
  let st := glfwWindowHint GLFW_SAMPLES 1 st
  let st := glfwWindowHint GLFW_CONTEXT_VERSION_MAJOR 3 st
  let st := glfwWindowHint GLFW_CONTEXT_VERSION_MINOR 3 st
  let st := glfwWindowHint GLFW_OPENGL_PROFILE GLFW_OPENGL_CORE_PROFILE st
  match glfwCreateWindow env windowWidth windowHeight "OpenGLTest" st with
  | (.error e, st) => (.error e, st)
  | (.ok (), st) =>
  let st := glfwMakeContextCurrent st
  let (res, st) := glewInit env st
  if res ≠ GLEW_OK then (.error (env.glewGetErrorString res), st) else
  let st := glEnable GL_DEPTH_TEST st
  let st := glDepthFunc GL_LESS st
  let (vertexArrayID, st) := glGenVertexArrays st
  let st := glBindVertexArray vertexArrayID st
  let (programID, st) := glCreateProgram st
  let (vertexShaderID, st) := glCreateShader GL_VERTEX_SHADER st
  let (fragmentShaderID, st) := glCreateShader GL_FRAGMENT_SHADER st
  match CompileShader env vertexShaderID vertexShaderCode st with
  | (.error e, st) => (.error e, st)
  | (.ok (), st) =>
  match CompileShader env fragmentShaderID fragmentShaderCode st with
  | (.error e, st) => (.error e, st)
  | (.ok (), st) =>
  match LinkShaders env programID [vertexShaderID, fragmentShaderID] st with
  | (.error e, st) => (.error e, st)
  | (.ok (), st) =>
  let (mvpID, st) := glGetUniformLocation env programID "mvp" st
  let view := Mat4.lookAt (0, 5, -20) (0, 0, 0) (0, 1, 0)
  let projection := Mat4.perspective (radians 75)
    (roundF32 ((windowWidth : ℚ) / (windowHeight : ℚ))) (roundF32 (1 / 10)) 100
  let (cubeVertex, st) := glGenBuffers st
  let st := glBindBuffer GL_ARRAY_BUFFER cubeVertex st
  let st := glBufferData GL_ARRAY_BUFFER (sizeofFloats cubeVertexData) cubeVertexData
    GL_STATIC_DRAW st
  let (pyramidVertex, st) := glGenBuffers st
  let st := glBindBuffer GL_ARRAY_BUFFER pyramidVertex st
  let st := glBufferData GL_ARRAY_BUFFER (sizeofFloats pyramidVertexData) pyramidVertexData
    GL_STATIC_DRAW st
  let (colourBuffer, st) := glGenBuffers st
  let st := glBindBuffer GL_ARRAY_BUFFER colourBuffer st
  let st := glBufferData GL_ARRAY_BUFFER (sizeofFloats colourBufferData) colourBufferData
    GL_STATIC_DRAW st
  let st := glClearColor 0 0 (roundF32 (4 / 10)) 0 st
  (.ok { vertexArrayID := vertexArrayID, programID := programID, mvpID := mvpID,
         view := view, projection := projection, cubeVertex := cubeVertex,
         pyramidVertex := pyramidVertex, colourBuffer := colourBuffer }, st)

/-- The function `run()`: the setup, the loop starting from `rotationAngle = 0.f`, and the
teardown. -/
def run (env : Env) : Except String Unit × GLState :=
  match setup env with
  | (.error e, st) => (.error e, st)
  | (.ok l, st) =>
  let rotationAngle : ℚ := 0
  let st := glfwSetInputMode GLFW_STICKY_KEYS GL_TRUE st
  let (_, st) := renderLoop env l env.frames rotationAngle st
  (.ok (), teardown l st)

/-- The function `main()`: the exit code and the text written to `stderr`. -/
def main (env : Env) : Int × String :=
  match run env with
  | (.ok (), _) => (EXIT_SUCCESS, "")
  | (.error e, _) => (EXIT_FAILURE, "Fatal Death: " ++ what e ++ "\n")

/-! ## What the driver reports, sample environments and trace predicates -/

/-- What the driver holds for the shader after `CompileShader` has set its source and compiled
it; nothing for a name that is not a shader. -/
def compileReport (env : Env) (shaderID : GLuint) (shaderCode : String) (st : GLState) :
    Option InfoResult :=
  if shaderID ∈ st.shaders then
    some (env.compile ((st.shaderType.lookup shaderID).getD 0) shaderCode)
  else none

/-- The `what_arg` of the exception `CompileShader` throws for the given driver answer. -/
def compileErrorText (info : InfoResult) : String :=
  "Shader Compilation Failed (" ++ toString info.status ++ "): " ++
    String.mk (writeInfoLog info.log info.logLength (List.replicate info.logLength NUL))

/-- An environment in which nothing fails and nothing is logged; the loop makes no pass. -/
def quietEnv : Env :=
  { glfwInitError := none, glfwCreateWindowError := none, glewInitResult := GLEW_OK,
    glewGetErrorString := fun _ => "Unknown error",
    compile := fun _ _ => ⟨GL_TRUE, 0, []⟩, link := fun _ => ⟨GL_TRUE, 0, []⟩,
    uniformLocation := fun _ _ => 0, sin := fun _ => 0, cos := fun _ => 1, frames := [] }

/-- A driver that rejects every stage with the log `bad`. -/
def rejectingEnv : Env :=
  { quietEnv with compile := fun _ _ => ⟨GL_FALSE, 4, ['b', 'a', 'd']⟩ }

/-- A driver that reports every compile as failed and keeps no log. -/
def silentFailEnv : Env :=
  { quietEnv with compile := fun _ _ => ⟨GL_FALSE, 0, []⟩ }

/-- The objects `run` has created when it starts compiling: program 1, shaders 2 and 3. -/
def stageState : GLState :=
  (glCreateShader GL_FRAGMENT_SHADER
    (glCreateShader GL_VERTEX_SHADER (glCreateProgram GLState.initial).2).2).2

/-- What the driver holds for the program after `LinkShaders` has attached the stages and
linked it; nothing for a name that is not a program. -/
def linkReport (env : Env) (programID : GLuint) (shaderIDs : List GLuint) (st : GLState) :
    Option InfoResult :=
  if programID ∈ st.programs then
    some (env.link (stagesOf (attachAll programID shaderIDs st) programID))
  else none

/-- The `what_arg` of the exception `LinkShaders` throws for the given driver answer. -/
def linkErrorText (info : InfoResult) : String :=
  "Program Linking Failed (" ++ toString info.status ++ "): " ++
    String.mk (writeInfoLog info.log info.logLength (List.replicate info.logLength NUL))

/-- The calls `LinkShaders` makes up to and including its two queries. -/
def linkCalls (programID : GLuint) (shaderIDs : List GLuint) : List GLCall :=
  shaderIDs.map (fun shaderID => GLCall.glAttachShader programID shaderID) ++
    [.glLinkProgram programID, .glGetProgramiv programID GL_LINK_STATUS,
     .glGetProgramiv programID GL_INFO_LOG_LENGTH]

/-- The calls of the last loop of `LinkShaders`. -/
def releaseCalls (programID : GLuint) (shaderIDs : List GLuint) : List GLCall :=
  shaderIDs.flatMap (fun shaderID =>
    [GLCall.glDetachShader programID shaderID, GLCall.glDeleteShader shaderID])

/-- The state `LinkShaders` is in after its two queries. -/
def linkedState (env : Env) (programID : GLuint) (shaderIDs : List GLuint) (st : GLState) :
    GLState :=
  (glGetProgramiv programID GL_INFO_LOG_LENGTH 0
    (glGetProgramiv programID GL_LINK_STATUS GL_FALSE
      (glLinkProgram env programID (attachAll programID shaderIDs st))).2).2

/-- Some values for the local variables of `run`. -/
def sampleLocals : Locals :=
  { vertexArrayID := 1, programID := 1, mvpID := 0,
    view := .lookAt (0, 5, -20) (0, 0, 0) (0, 1, 0),
    projection := .perspective (radians 75) (roundF32 (16 / 9)) (roundF32 (1 / 10)) 100,
    cubeVertex := 1, pyramidVertex := 2, colourBuffer := 3 }

/-- An observation on which the loop makes a pass that takes 5 ms. -/
def runningFrame : FrameInput :=
  { windowShouldClose := 0, escapeKey := 0, frameStartTime := 1000000, frameEndTime := 6000000 }

/-- Is the call a draw call? -/
def isDrawCall : GLCall → Bool
  | .glDrawArrays _ _ _ => true
  | _ => false

/-- Is every `glDrawArrays` of the trace directly followed by `glDisableVertexAttribArray(0)`
and `glDisableVertexAttribArray(1)`? -/
def drawsFollowedByDisable : List GLCall → Bool
  | [] => true
  | .glDrawArrays _ _ _ :: rest =>
    (match rest with
      | .glDisableVertexAttribArray 0 :: .glDisableVertexAttribArray 1 :: _ => true
      | _ => false) && drawsFollowedByDisable rest
  | _ :: rest => drawsFollowedByDisable rest

/-- A state in which the three buffers of `run` exist and no attribute slot is enabled. -/
def bufferState : GLState :=
  (glGenBuffers (glGenBuffers (glGenBuffers GLState.initial).2).2).2

/-- An observation on which the loop makes a pass during which the clock steps back. -/
def backwardsFrame : FrameInput :=
  { windowShouldClose := 0, escapeKey := 0, frameStartTime := 9000000, frameEndTime := 2000000 }

/-- The two stages `run` hands to the linker, as the driver compiled them. -/
def compiledStages (env : Env) : List Stage :=
  [{ type := GL_VERTEX_SHADER, source := vertexShaderCode,
     info := env.compile GL_VERTEX_SHADER vertexShaderCode },
   { type := GL_FRAGMENT_SHADER, source := fragmentShaderCode,
     info := env.compile GL_FRAGMENT_SHADER fragmentShaderCode }]

/-- No step before the loop raises an error: GLFW reports none, GLEW initialises, and the
driver leaves no log for either stage or for the program. -/
def setupSucceeds (env : Env) : Prop :=
  env.glfwInitError = none ∧ env.glfwCreateWindowError = none ∧
  env.glewInitResult = GLEW_OK ∧
  (env.compile GL_VERTEX_SHADER vertexShaderCode).logLength = 0 ∧
  (env.compile GL_FRAGMENT_SHADER fragmentShaderCode).logLength = 0 ∧
  (env.link (compiledStages env)).logLength = 0

/-- The calls that release what `run` created for the whole run. -/
def isReleaseCall : GLCall → Bool
  | .glDeleteBuffers _ => true
  | .glDeleteProgram _ => true
  | .glDeleteVertexArrays _ => true
  | .glfwTerminate => true
  | _ => false

/-- The calls that create what the teardown releases. -/
def isCreateCall : GLCall → Bool
  | .glGenBuffers _ => true
  | .glCreateProgram _ => true
  | .glGenVertexArrays _ => true
  | .glfwCreateWindow _ _ _ => true
  | _ => false

/-- The local variables of `run` when the loop starts. -/
def runLocals (env : Env) : Locals :=
  { vertexArrayID := 1, programID := 1, mvpID := env.uniformLocation 1 "mvp",
    view := .lookAt (0, 5, -20) (0, 0, 0) (0, 1, 0),
    projection := .perspective (radians 75)
      (roundF32 ((windowWidth : ℚ) / (windowHeight : ℚ))) (roundF32 (1 / 10)) 100,
    cubeVertex := 1, pyramidVertex := 2, colourBuffer := 3 }

/-- The first step before the loop that raises an error, with the `what_arg` of its
exception; the local variables if none does. -/
def setupOutcome (env : Env) : Except String Locals :=
  match env.glfwInitError with
  | some (errorCode, description) => .error (GLFWErrorHandler errorCode description)
  | none =>
    match env.glfwCreateWindowError with
    | some (errorCode, description) => .error (GLFWErrorHandler errorCode description)
    | none =>
      if env.glewInitResult ≠ GLEW_OK then
        .error (env.glewGetErrorString env.glewInitResult)
      else if (env.compile GL_VERTEX_SHADER vertexShaderCode).logLength ≠ 0 then
        .error (compileErrorText (env.compile GL_VERTEX_SHADER vertexShaderCode))
      else if (env.compile GL_FRAGMENT_SHADER fragmentShaderCode).logLength ≠ 0 then
        .error (compileErrorText (env.compile GL_FRAGMENT_SHADER fragmentShaderCode))
      else if (env.link (compiledStages env)).logLength ≠ 0 then
        .error (linkErrorText (env.link (compiledStages env)))
      else .ok (runLocals env)

/-- A driver that accepts every stage but leaves the log `bad` (a warning). -/
def warningEnv : Env :=
  { quietEnv with compile := fun _ _ => ⟨GL_TRUE, 4, ['b', 'a', 'd']⟩ }

/-- A driver whose linker reports success and leaves the log `warn`. -/
def linkWarningEnv : Env :=
  { quietEnv with link := fun _ => ⟨GL_TRUE, 5, ['w', 'a', 'r', 'n']⟩ }

/-- Nothing fails, the loop makes two passes and the third observation has the escape key
pressed. -/
def twoFrameEnv : Env :=
  { quietEnv with frames := [runningFrame, backwardsFrame,
      { windowShouldClose := 0, escapeKey := GLFW_PRESS, frameStartTime := 0,
        frameEndTime := 0 }] }

/-! ## Lemmas -/

/-! ### binary32 rounding -/

theorem roundHalfEven_intCast (n : ℤ) : roundHalfEven (n : ℚ) = n := by
  simp [roundHalfEven]

theorem roundHalfEven_le (y : ℚ) (n : ℤ) (h : y ≤ n) : roundHalfEven y ≤ n := by
  have hf : ⌊y⌋ ≤ n := Int.floor_le_floor h |>.trans (by simp)
  unfold roundHalfEven
  simp only
  by_cases hd : y - ⌊y⌋ < 1 / 2
  · rw [if_pos hd]; exact hf
  · have hlt : ⌊y⌋ < n := by
      rcases lt_or_eq_of_le hf with h1 | h1
      · exact h1
      · exfalso
        have : (⌊y⌋ : ℚ) ≤ y := Int.floor_le y
        have h2 : y = ⌊y⌋ := le_antisymm (by rw [h1]; exact h) this
        apply hd
        rw [← h2]; norm_num
    have : ⌊y⌋ + 1 ≤ n := hlt
    simp only [hd, if_false]
    split_ifs <;> omega

theorem le_roundHalfEven (y : ℚ) (n : ℤ) (h : (n : ℚ) ≤ y) : n ≤ roundHalfEven y := by
  have hf : n ≤ ⌊y⌋ := Int.le_floor.mpr h
  unfold roundHalfEven
  simp only
  split_ifs <;> omega

theorem exponent_le (x : ℚ) (hx0 : x ≠ 0) (hx : |x| < 2 ^ 24) :
    max (Int.log 2 |x|) (-126) ≤ 23 := by
  have hpos : 0 < |x| := abs_pos.mpr hx0
  have : Int.log 2 |x| < 24 := by
    apply (Int.lt_zpow_iff_log_lt (by norm_num) hpos).mp
    exact_mod_cast hx
  omega

theorem roundF32_le (x : ℚ) (B : ℤ) (hx : |x| < 2 ^ 24) (h : x ≤ B) : roundF32 x ≤ B := by
  unfold roundF32
  by_cases hx0 : x = 0
  · simp only [hx0, if_true]; rw [hx0] at h; exact h
  · simp only [hx0, if_false]
    have he := exponent_le x hx0 hx
    generalize max (Int.log 2 |x|) (-126) = e at he
    obtain ⟨k, hk⟩ : ∃ k : ℕ, e - 23 = -(k : ℤ) := ⟨(23 - e).toNat, by omega⟩
    rw [hk, zpow_neg, zpow_natCast]
    have h2 : (0 : ℚ) < 2 ^ k := by positivity
    have hle : roundHalfEven (x / (2 ^ k)⁻¹) ≤ B * 2 ^ k := by
      apply roundHalfEven_le
      rw [div_inv_eq_mul]
      push_cast
      exact mul_le_mul_of_nonneg_right h h2.le
    have : ((roundHalfEven (x / (2 ^ k)⁻¹) : ℤ) : ℚ) ≤ ((B * 2 ^ k : ℤ) : ℚ) := by
      exact_mod_cast hle
    calc (roundHalfEven (x / (2 ^ k)⁻¹) : ℚ) * (2 ^ k)⁻¹
        ≤ ((B * 2 ^ k : ℤ) : ℚ) * (2 ^ k)⁻¹ :=
          mul_le_mul_of_nonneg_right this (by positivity)
      _ = B := by push_cast; field_simp

theorem le_roundF32 (x : ℚ) (B : ℤ) (hx : |x| < 2 ^ 24) (h : (B : ℚ) ≤ x) :
    (B : ℚ) ≤ roundF32 x := by
  unfold roundF32
  by_cases hx0 : x = 0
  · simp only [hx0, if_true]; rw [hx0] at h; exact h
  · simp only [hx0, if_false]
    have he := exponent_le x hx0 hx
    generalize max (Int.log 2 |x|) (-126) = e at he
    obtain ⟨k, hk⟩ : ∃ k : ℕ, e - 23 = -(k : ℤ) := ⟨(23 - e).toNat, by omega⟩
    rw [hk, zpow_neg, zpow_natCast]
    have h2 : (0 : ℚ) < 2 ^ k := by positivity
    have hle : B * 2 ^ k ≤ roundHalfEven (x / (2 ^ k)⁻¹) := by
      apply le_roundHalfEven
      rw [div_inv_eq_mul]
      push_cast
      exact mul_le_mul_of_nonneg_right h h2.le
    have : ((B * 2 ^ k : ℤ) : ℚ) ≤ ((roundHalfEven (x / (2 ^ k)⁻¹) : ℤ) : ℚ) := by
      exact_mod_cast hle
    calc (B : ℚ) = ((B * 2 ^ k : ℤ) : ℚ) * (2 ^ k)⁻¹ := by push_cast; field_simp
      _ ≤ (roundHalfEven (x / (2 ^ k)⁻¹) : ℚ) * (2 ^ k)⁻¹ :=
          mul_le_mul_of_nonneg_right this (by positivity)

theorem roundF32_of_log (n : ℕ) (L : ℕ) (h1 : 2 ^ L ≤ n) (h2 : n < 2 ^ (L + 1)) :
    roundF32 (n : ℚ) = roundHalfEven ((n : ℚ) / 2 ^ ((L : ℤ) - 23)) * 2 ^ ((L : ℤ) - 23) := by
  have hn : n ≠ 0 := by
    have : 0 < 2 ^ L := by positivity
    omega
  have hlog : Int.log 2 |(n : ℚ)| = L := by
    rw [abs_of_nonneg (by positivity), Int.log_natCast, Nat.log_eq_of_pow_le_of_lt_pow h1 h2]
  unfold roundF32
  have hn' : (n : ℚ) ≠ 0 := by exact_mod_cast hn
  simp only [hn', if_false, hlog]
  have : max (L : ℤ) (-126) = L := by omega
  rw [this]

theorem roundF32_natCast (k : ℕ) (hk : k ≤ 2 ^ 24) : roundF32 (k : ℚ) = k := by
  rcases Nat.lt_or_ge k (2 ^ 24) with h | h
  · apply le_antisymm
    · have := roundF32_le (k : ℚ) (k : ℤ)
        (by rw [abs_of_nonneg (by positivity)]; exact_mod_cast h) (by simp)
      simpa using this
    · have := le_roundF32 (k : ℚ) (k : ℤ)
        (by rw [abs_of_nonneg (by positivity)]; exact_mod_cast h) (by simp)
      simpa using this
  · have hk' : k = 2 ^ 24 := le_antisymm hk h
    subst hk'
    rw [roundF32_of_log (2 ^ 24) 24 (by norm_num) (by norm_num)]
    have : ((2 ^ 24 : ℕ) : ℚ) / 2 ^ (((24 : ℕ) : ℤ) - 23) = ((2 ^ 23 : ℤ) : ℚ) := by norm_num
    rw [this, roundHalfEven_intCast]
    norm_num

theorem roundF32_sat : roundF32 ((2 ^ 24 + 1 : ℕ) : ℚ) = 2 ^ 24 := by
  rw [roundF32_of_log (2 ^ 24 + 1) 24 (by norm_num) (by norm_num)]
  have h : roundHalfEven (((2 ^ 24 + 1 : ℕ) : ℚ) / 2 ^ (((24 : ℕ) : ℤ) - 23)) = 2 ^ 23 := by
    have hfl : ⌊(((2 ^ 24 + 1 : ℕ) : ℚ) / 2 ^ (((24 : ℕ) : ℤ) - 23))⌋ = 2 ^ 23 := by
      rw [Int.floor_eq_iff]; norm_num
    unfold roundHalfEven
    simp only [hfl]
    norm_num
  rw [h]; norm_num

/-! ### `rotationAngle` -/

theorem iterations_replicate (n : Nat) :
    iterations (List.replicate n runningFrame) = n := by
  induction n with
  | zero => rfl
  | succ k ih =>
    have : iterations (runningFrame :: List.replicate k runningFrame) =
        iterations (List.replicate k runningFrame) + 1 := by
      rw [iterations]; simp [runningFrame, GLFW_PRESS]
    rw [List.replicate_succ, this, ih]

theorem frame_fst (env : Env) (l : Locals) (input : FrameInput) (a : ℚ) (st : GLState) :
    (frame env l input a st).1 = roundF32 (a + 1) := rfl

/-- The accumulator after the loop is the float increment applied once per pass. -/
theorem renderLoop_fst (env : Env) (l : Locals) (frames : List FrameInput) (a : ℚ)
    (st : GLState) :
    (renderLoop env l frames a st).1 = (fun x => roundF32 (x + 1))^[iterations frames] a := by
  induction frames generalizing a st with
  | nil => rfl
  | cons input rest ih =>
    unfold renderLoop iterations
    by_cases h1 : input.windowShouldClose = 0
    · by_cases h2 : input.escapeKey = GLFW_PRESS
      · simp [h1, h2]
      · simp only [h1, h2, ne_eq, not_false_eq_true, and_self, if_true]
        rw [Function.iterate_succ_apply, ← frame_fst env l input a, ih]
    · simp [h1]

theorem increment_iterate_small (n : Nat) (hn : n ≤ 2 ^ 24) :
    (fun x : ℚ => roundF32 (x + 1))^[n] 0 = n := by
  induction n with
  | zero => simp
  | succ k ih =>
    rw [Function.iterate_succ_apply', ih (by omega)]
    have := roundF32_natCast (k + 1) hn
    push_cast at this ⊢
    exact this

theorem increment_iterate (n : Nat) :
    (fun x : ℚ => roundF32 (x + 1))^[n] 0 = ((min n (2 ^ 24) : ℕ) : ℚ) := by
  rcases Nat.le_total n (2 ^ 24) with h | h
  · rw [increment_iterate_small n h, Nat.min_eq_left h]
  · rw [Nat.min_eq_right h]
    induction n, h using Nat.le_induction with
    | base => exact increment_iterate_small _ le_rfl
    | succ k _ ih =>
      rw [Function.iterate_succ_apply', ih]
      have h2 : ((2 ^ 24 : ℕ) : ℚ) + 1 = ((2 ^ 24 + 1 : ℕ) : ℚ) := by norm_num
      rw [h2, roundF32_sat]
      norm_num

/-! ### `scaleMag` and `zMag` -/

theorem roundF32_mem_Icc (x : ℚ) (lo hi : ℤ) (hlo : (lo : ℚ) ≤ x) (hhi : x ≤ hi)
    (hsmall : |x| < 2 ^ 24) : (lo : ℚ) ≤ roundF32 x ∧ roundF32 x ≤ hi :=
  ⟨le_roundF32 x lo hsmall hlo, roundF32_le x hi hsmall hhi⟩

theorem digitChar_ne_NUL : ∀ n, n < 10 → Nat.digitChar n ≠ NUL := by
  decide

theorem toDigitsCore_no_NUL (fuel n : Nat) (ds : List Char) (h : ∀ c ∈ ds, c ≠ NUL) :
    ∀ c ∈ Nat.toDigitsCore 10 fuel n ds, c ≠ NUL := by
  induction fuel generalizing n ds with
  | zero => simpa [Nat.toDigitsCore] using h
  | succ k ih =>
    have hcons : ∀ c ∈ Nat.digitChar (n % 10) :: ds, c ≠ NUL := by
      intro c hc
      rcases List.mem_cons.mp hc with rfl | hc
      · exact digitChar_ne_NUL _ (Nat.mod_lt _ (by norm_num))
      · exact h c hc
    unfold Nat.toDigitsCore
    dsimp only
    split_ifs
    · exact hcons
    · exact ih _ _ hcons

theorem natRepr_no_NUL (n : Nat) : ∀ c ∈ (Nat.repr n).data, c ≠ NUL := by
  unfold Nat.repr Nat.toDigits
  simpa [List.asString] using toDigitsCore_no_NUL (n + 1) n [] (by simp)

theorem intToString_no_NUL (i : Int) : ∀ c ∈ (toString i).data, c ≠ NUL := by
  cases i with
  | ofNat n => exact natRepr_no_NUL n
  | negSucc n =>
    intro c hc
    have : (toString (Int.negSucc n)).data = '-' :: (Nat.repr (n + 1)).data := rfl
    rw [this] at hc
    rcases List.mem_cons.mp hc with rfl | hc
    · decide
    · exact natRepr_no_NUL _ c hc

theorem takeWhile_no_NUL (xs ys : List Char) (h : ∀ c ∈ xs, c ≠ NUL) :
    (xs ++ NUL :: ys).takeWhile (fun c => c ≠ NUL) = xs := by
  induction xs with
  | nil => simp
  | cons x xs ih =>
    have hx : x ≠ NUL := h x (List.mem_cons_self _ _)
    simpa [List.takeWhile, hx] using ih (fun c hc => h c (List.mem_cons_of_mem _ hc))

theorem writeInfoLog_conformant (log : List Char) :
    writeInfoLog log (log.length + 1) (List.replicate (log.length + 1) NUL) = log ++ [NUL] := by
  simp [writeInfoLog]

/-- The text `what()` returns for `head (status): log` followed by the terminator. -/
theorem what_message (head : String) (status : Int) (log : List Char)
    (hhead : ∀ c ∈ head.data, c ≠ NUL) (hlog : ∀ c ∈ log, c ≠ NUL) :
    what (head ++ toString status ++ "): " ++ String.mk (log ++ [NUL])) =
      head ++ toString status ++ "): " ++ String.mk log := by
  have hpre : ∀ c ∈ (head ++ toString status ++ "): ").data ++ log, c ≠ NUL := by
    intro c hc
    simp only [String.data_append, List.mem_append] at hc
    rcases hc with ((hc | hc) | hc) | hc
    · exact hhead c hc
    · exact intToString_no_NUL status c hc
    · revert hc c; decide
    · exact hlog c hc
  unfold what
  apply String.ext
  simp only [String.data_append]
  rw [← List.append_assoc]
  simpa using takeWhile_no_NUL _ [] hpre

theorem CompileShader_fst (env : Env) (shaderID : GLuint) (shaderCode : String)
    (st : GLState) :
    (CompileShader env shaderID shaderCode st).1 =
      match compileReport env shaderID shaderCode st with
      | some info => if info.logLength ≠ 0 then .error (compileErrorText info) else .ok ()
      | none => .ok () := by
  by_cases h : shaderID ∈ st.shaders
  · simp [CompileShader, compileReport, compileErrorText, glShaderSource, glCompileShader,
      glGetShaderiv, glGetShaderInfoLog, shaderInfoOf, record, h, GL_COMPILE_STATUS,
      GL_INFO_LOG_LENGTH, List.lookup]
    split <;> simp_all
  · simp [CompileShader, compileReport, glShaderSource, glCompileShader,
      glGetShaderiv, glGetShaderInfoLog, shaderInfoOf, record, h]

/-! ### The attach loop -/

theorem glAttachShader_programs (p s : GLuint) (st : GLState) :
    (glAttachShader p s st).programs = st.programs := by
  unfold glAttachShader record; dsimp only; split_ifs <;> rfl

theorem glAttachShader_shaders (p s : GLuint) (st : GLState) :
    (glAttachShader p s st).shaders = st.shaders := by
  unfold glAttachShader record; dsimp only; split_ifs <;> rfl

theorem glAttachShader_calls (p s : GLuint) (st : GLState) :
    (glAttachShader p s st).calls = st.calls ++ [.glAttachShader p s] := by
  unfold glAttachShader record; dsimp only; split_ifs <;> rfl

theorem glAttachShader_attached_mono (p s : GLuint) (st : GLState) (a : GLuint × GLuint)
    (ha : a ∈ st.attached) : a ∈ (glAttachShader p s st).attached := by
  unfold glAttachShader record; dsimp only; split_ifs
  · exact List.mem_append_left _ ha
  · exact ha

theorem glAttachShader_attached_mem (p s : GLuint) (st : GLState) (hp : p ∈ st.programs)
    (hs : s ∈ st.shaders) : (p, s) ∈ (glAttachShader p s st).attached := by
  unfold glAttachShader record; dsimp only
  by_cases h : (p, s) ∈ st.attached
  · simp [h]
  · simp [h, hp, hs]

theorem glAttachShader_attached_inv (p s : GLuint) (st : GLState) (a : GLuint × GLuint)
    (ha : a ∈ (glAttachShader p s st).attached) : a ∈ st.attached ∨ a = (p, s) := by
  unfold glAttachShader record at ha; dsimp only at ha
  split_ifs at ha
  · rcases List.mem_append.mp ha with h | h
    · exact Or.inl h
    · exact Or.inr (by simpa using h)
  · exact Or.inl ha

theorem attachAll_cons (p s : GLuint) (ids : List GLuint) (st : GLState) :
    attachAll p (s :: ids) st = attachAll p ids (glAttachShader p s st) := rfl

theorem attachAll_programs (p : GLuint) (ids : List GLuint) (st : GLState) :
    (attachAll p ids st).programs = st.programs := by
  induction ids generalizing st with
  | nil => rfl
  | cons s ids ih => rw [attachAll_cons, ih, glAttachShader_programs]

theorem attachAll_shaders (p : GLuint) (ids : List GLuint) (st : GLState) :
    (attachAll p ids st).shaders = st.shaders := by
  induction ids generalizing st with
  | nil => rfl
  | cons s ids ih => rw [attachAll_cons, ih, glAttachShader_shaders]

theorem attachAll_calls (p : GLuint) (ids : List GLuint) (st : GLState) :
    (attachAll p ids st).calls = st.calls ++ ids.map (fun s => GLCall.glAttachShader p s) := by
  induction ids generalizing st with
  | nil => simp [attachAll]
  | cons s ids ih => rw [attachAll_cons, ih, glAttachShader_calls]; simp

theorem attachAll_attached_mono (p : GLuint) (ids : List GLuint) (st : GLState)
    (a : GLuint × GLuint) (ha : a ∈ st.attached) : a ∈ (attachAll p ids st).attached := by
  induction ids generalizing st with
  | nil => exact ha
  | cons s ids ih => rw [attachAll_cons]; exact ih _ (glAttachShader_attached_mono p s st a ha)

theorem attachAll_attached_mem (p : GLuint) (ids : List GLuint) (st : GLState)
    (hp : p ∈ st.programs) (s : GLuint) (hs : s ∈ ids) (hlive : s ∈ st.shaders) :
    (p, s) ∈ (attachAll p ids st).attached := by
  induction ids generalizing st with
  | nil => cases hs
  | cons x ids ih =>
    rw [attachAll_cons]
    rcases List.mem_cons.mp hs with rfl | hs
    · exact attachAll_attached_mono p ids _ _ (glAttachShader_attached_mem p s st hp hlive)
    · exact ih _ (by rw [glAttachShader_programs]; exact hp) hs
        (by rw [glAttachShader_shaders]; exact hlive)

theorem attachAll_attached_inv (p : GLuint) (ids : List GLuint) (st : GLState)
    (a : GLuint × GLuint) (ha : a ∈ (attachAll p ids st).attached) :
    a ∈ st.attached ∨ (a.1 = p ∧ a.2 ∈ ids) := by
  induction ids generalizing st with
  | nil => exact Or.inl ha
  | cons s ids ih =>
    rw [attachAll_cons] at ha
    rcases ih _ ha with h | h
    · rcases glAttachShader_attached_inv p s st a h with h | h
      · exact Or.inl h
      · exact Or.inr (by simp [h])
    · exact Or.inr ⟨h.1, List.mem_cons_of_mem _ h.2⟩

/-! ### The release loop -/

theorem glDetachShader_calls (p s : GLuint) (st : GLState) :
    (glDetachShader p s st).calls = st.calls ++ [.glDetachShader p s] := by
  unfold glDetachShader record; dsimp only; split_ifs <;> rfl

theorem glDetachShader_programs (p s : GLuint) (st : GLState) :
    (glDetachShader p s st).programs = st.programs := by
  unfold glDetachShader record; dsimp only; split_ifs <;> rfl

theorem glDetachShader_attached_sub (p s : GLuint) (st : GLState) (a : GLuint × GLuint)
    (ha : a ∈ (glDetachShader p s st).attached) : a ∈ st.attached ∧ a ≠ (p, s) := by
  unfold glDetachShader record at ha; dsimp only at ha
  split_ifs at ha with h1 h2
  · simpa using ha
  · simpa using ha
  · exact ⟨ha, fun h => h1 (h ▸ ha)⟩

theorem glDetachShader_shaders_sub (p s : GLuint) (st : GLState) (x : GLuint)
    (hx : x ∈ (glDetachShader p s st).shaders) : x ∈ st.shaders := by
  unfold glDetachShader record at hx; dsimp only at hx
  split_ifs at hx
  · exact (List.mem_filter.mp hx).1
  · exact hx
  · exact hx

theorem glDeleteShader_calls (s : GLuint) (st : GLState) :
    (glDeleteShader s st).calls = st.calls ++ [.glDeleteShader s] := by
  unfold glDeleteShader record; dsimp only; split_ifs <;> rfl

theorem glDeleteShader_programs (s : GLuint) (st : GLState) :
    (glDeleteShader s st).programs = st.programs := by
  unfold glDeleteShader record; dsimp only; split_ifs <;> rfl

theorem glDeleteShader_attached (s : GLuint) (st : GLState) :
    (glDeleteShader s st).attached = st.attached := by
  unfold glDeleteShader record; dsimp only; split_ifs <;> rfl

theorem glDeleteShader_shaders_sub (s : GLuint) (st : GLState) (x : GLuint)
    (hx : x ∈ (glDeleteShader s st).shaders) : x ∈ st.shaders := by
  unfold glDeleteShader record at hx; dsimp only at hx
  split_ifs at hx
  · exact hx
  · exact (List.mem_filter.mp hx).1
  · exact hx

theorem glDeleteShader_not_mem (s : GLuint) (st : GLState)
    (h : ∀ q, (q, s) ∉ st.attached) : s ∉ (glDeleteShader s st).shaders := by
  have hatt : isAttached (record (.glDeleteShader s) st) s = false := by
    simp only [isAttached, record, List.any_eq_false]
    intro a ha
    have : a.2 ≠ s := fun h2 => h a.1 (by rw [← h2]; exact ha)
    simpa using this
  unfold glDeleteShader; dsimp only
  split_ifs with h1 h2
  · rw [hatt] at h2; cases h2
  · simp
  · exact h1

theorem detachDeleteAll_cons (p s : GLuint) (ids : List GLuint) (st : GLState) :
    detachDeleteAll p (s :: ids) st =
      detachDeleteAll p ids (glDeleteShader s (glDetachShader p s st)) := rfl

theorem detachDeleteAll_calls (p : GLuint) (ids : List GLuint) (st : GLState) :
    (detachDeleteAll p ids st).calls = st.calls ++ releaseCalls p ids := by
  induction ids generalizing st with
  | nil => simp [detachDeleteAll, releaseCalls]
  | cons s ids ih =>
    rw [detachDeleteAll_cons, ih, glDeleteShader_calls, glDetachShader_calls]
    simp [releaseCalls]

theorem detachDeleteAll_programs (p : GLuint) (ids : List GLuint) (st : GLState) :
    (detachDeleteAll p ids st).programs = st.programs := by
  induction ids generalizing st with
  | nil => rfl
  | cons s ids ih =>
    rw [detachDeleteAll_cons, ih, glDeleteShader_programs, glDetachShader_programs]

theorem detachDeleteAll_attached_sub (p : GLuint) (ids : List GLuint) (st : GLState)
    (a : GLuint × GLuint) (ha : a ∈ (detachDeleteAll p ids st).attached) : a ∈ st.attached := by
  induction ids generalizing st with
  | nil => exact ha
  | cons s ids ih =>
    rw [detachDeleteAll_cons] at ha
    have := ih _ ha
    rw [glDeleteShader_attached] at this
    exact (glDetachShader_attached_sub p s st a this).1

theorem detachDeleteAll_shaders_sub (p : GLuint) (ids : List GLuint) (st : GLState)
    (x : GLuint) (hx : x ∈ (detachDeleteAll p ids st).shaders) : x ∈ st.shaders := by
  induction ids generalizing st with
  | nil => exact hx
  | cons s ids ih =>
    rw [detachDeleteAll_cons] at hx
    exact glDetachShader_shaders_sub p s st x (glDeleteShader_shaders_sub s _ x (ih _ hx))

theorem detachDeleteAll_released (p : GLuint) (ids : List GLuint) (st : GLState)
    (hfree : ∀ s ∈ ids, ∀ q, (q, s) ∈ st.attached → q = p) :
    ∀ s ∈ ids, (p, s) ∉ (detachDeleteAll p ids st).attached ∧
      s ∉ (detachDeleteAll p ids st).shaders := by
  induction ids generalizing st with
  | nil => intro s hs; cases hs
  | cons x ids ih =>
    intro s hs
    rw [detachDeleteAll_cons]
    by_cases hmem : s ∈ ids
    · refine ih _ ?_ s hmem
      intro s' hs' q hq
      rw [glDeleteShader_attached] at hq
      exact hfree s' (List.mem_cons_of_mem _ hs') q (glDetachShader_attached_sub p x st _ hq).1
    · have hsx : s = x := by
        rcases List.mem_cons.mp hs with h | h
        · exact h
        · exact absurd h hmem
      subst hsx
      have hnone : ∀ q, (q, s) ∉ (glDetachShader p s st).attached := by
        intro q hq
        have h := glDetachShader_attached_sub p s st _ hq
        have hqp := hfree s (List.mem_cons_self _ _) q h.1
        exact h.2 (by rw [hqp])
      constructor
      · intro h
        have := detachDeleteAll_attached_sub p ids _ _ h
        rw [glDeleteShader_attached] at this
        exact hnone p this
      · intro h
        exact glDeleteShader_not_mem s _ hnone (detachDeleteAll_shaders_sub p ids _ s h)

theorem glLinkProgram_fields (env : Env) (p : GLuint) (st : GLState) :
    (glLinkProgram env p st).calls = st.calls ++ [.glLinkProgram p] ∧
    (glLinkProgram env p st).attached = st.attached ∧
    (glLinkProgram env p st).shaders = st.shaders ∧
    (glLinkProgram env p st).programs = st.programs := by
  unfold glLinkProgram record; dsimp only; split_ifs <;> exact ⟨rfl, rfl, rfl, rfl⟩

theorem glGetProgramiv_snd (p : GLuint) (pname : GLenum) (out : GLint) (st : GLState) :
    (glGetProgramiv p pname out st).2 = record (.glGetProgramiv p pname) st := by
  unfold glGetProgramiv; dsimp only
  split
  · split_ifs <;> rfl
  · rfl

theorem linkedState_fields (env : Env) (p : GLuint) (ids : List GLuint) (st : GLState) :
    (linkedState env p ids st).calls = st.calls ++ linkCalls p ids ∧
    (linkedState env p ids st).attached = (attachAll p ids st).attached ∧
    (linkedState env p ids st).shaders = st.shaders ∧
    (linkedState env p ids st).programs = st.programs := by
  unfold linkedState
  rw [glGetProgramiv_snd, glGetProgramiv_snd]
  obtain ⟨h1, h2, h3, h4⟩ := glLinkProgram_fields env p (attachAll p ids st)
  refine ⟨?_, ?_, ?_, ?_⟩
  · simp [record, h1, attachAll_calls, linkCalls]
  · simp [record, h2]
  · simp [record, h3, attachAll_shaders]
  · simp [record, h4, attachAll_programs]

theorem LinkShaders_eq (env : Env) (p : GLuint) (ids : List GLuint) (st : GLState) :
    LinkShaders env p ids st =
      match linkReport env p ids st with
      | some info =>
        if info.logLength ≠ 0 then
          (.error (linkErrorText info),
            record (.glGetProgramInfoLog p info.logLength) (linkedState env p ids st))
        else (.ok (), detachDeleteAll p ids (linkedState env p ids st))
      | none => (.ok (), detachDeleteAll p ids (linkedState env p ids st)) := by
  by_cases hp : p ∈ st.programs
  · simp [LinkShaders, linkReport, linkErrorText, linkedState, glLinkProgram, glGetProgramiv,
      glGetProgramInfoLog, programInfoOf, record, hp, attachAll_programs, GL_LINK_STATUS,
      GL_INFO_LOG_LENGTH, List.lookup, stagesOf]
  · simp [LinkShaders, linkReport, linkedState, glLinkProgram, glGetProgramiv,
      glGetProgramInfoLog, programInfoOf, record, hp, attachAll_programs]

theorem count_releaseCalls_delete (p : GLuint) (ids : List GLuint) (s : GLuint) :
    (releaseCalls p ids).count (.glDeleteShader s) = ids.count s := by
  induction ids with
  | nil => rfl
  | cons x ids ih =>
    have : releaseCalls p (x :: ids) =
        .glDetachShader p x :: .glDeleteShader x :: releaseCalls p ids := rfl
    rw [this, List.count_cons, List.count_cons, ih, List.count_cons]
    by_cases h : x = s <;> simp [h]

theorem count_releaseCalls_detach (p : GLuint) (ids : List GLuint) (s : GLuint) :
    (releaseCalls p ids).count (.glDetachShader p s) = ids.count s := by
  induction ids with
  | nil => rfl
  | cons x ids ih =>
    have : releaseCalls p (x :: ids) =
        .glDetachShader p x :: .glDeleteShader x :: releaseCalls p ids := rfl
    rw [this, List.count_cons, List.count_cons, ih, List.count_cons]
    by_cases h : x = s <;> simp [h]

theorem frame_slept (env : Env) (l : Locals) (input : FrameInput) (a : ℚ) (st : GLState) :
    (frame env l input a st).2.slept =
      st.slept ++ (if input.frameEndTime - input.frameStartTime < frameLimit
        then [frameLimit - (input.frameEndTime - input.frameStartTime)] else []) := by
  by_cases h : input.frameEndTime - input.frameStartTime < frameLimit
  · simp [frame, h, glClear, glUseProgram, glEnableVertexAttribArray, glBindBuffer,
      glVertexAttribPointer, glUniformMatrix4fv, glDrawArrays, glDisableVertexAttribArray,
      glfwSwapBuffers, sleep_for, glfwPollEvents, record]
  · simp [frame, h, glClear, glUseProgram, glEnableVertexAttribArray, glBindBuffer,
      glVertexAttribPointer, glUniformMatrix4fv, glDrawArrays, glDisableVertexAttribArray,
      glfwSwapBuffers, sleep_for, glfwPollEvents, record]

theorem frame_calls_draw (env : Env) (l : Locals) (input : FrameInput) (a : ℚ)
    (st : GLState) :
    ((frame env l input a st).2.calls.drop st.calls.length).filter isDrawCall =
      [.glDrawArrays GL_TRIANGLES 0 (cubeVertexData.length / 3),
       .glDrawArrays GL_TRIANGLES 0 (pyramidVertexData.length / 3)] ∧
    drawsFollowedByDisable ((frame env l input a st).2.calls.drop st.calls.length) = true := by
  by_cases h : input.frameEndTime - input.frameStartTime < frameLimit
  · simp [frame, h, glClear, glUseProgram, glEnableVertexAttribArray, glBindBuffer,
      glVertexAttribPointer, glUniformMatrix4fv, glDrawArrays, glDisableVertexAttribArray,
      glfwSwapBuffers, sleep_for, glfwPollEvents, record, isDrawCall, drawsFollowedByDisable]
  · simp [frame, h, glClear, glUseProgram, glEnableVertexAttribArray, glBindBuffer,
      glVertexAttribPointer, glUniformMatrix4fv, glDrawArrays, glDisableVertexAttribArray,
      glfwSwapBuffers, sleep_for, glfwPollEvents, record, isDrawCall, drawsFollowedByDisable]

theorem vertexData_lengths :
    cubeVertexData.length = 108 ∧ pyramidVertexData.length = 36 ∧
      colourBufferData.length = 108 := by
  refine ⟨by rfl, by rfl, ?_⟩
  unfold colourBufferData
  rw [List.length_map]
  rfl

theorem frame_draws (env : Env) (l : Locals) (input : FrameInput) (a : ℚ) (st : GLState)
    (hcube : l.cubeVertex ∈ st.buffers) (hpyramid : l.pyramidVertex ∈ st.buffers)
    (hcolour : l.colourBuffer ∈ st.buffers) (henabled : st.enabledAttribs = []) :
    (frame env l input a st).2.draws = st.draws ++
      [{ mode := GL_TRIANGLES, first := 0, count := cubeVertexData.length / 3,
         attribs := [(0, l.cubeVertex), (1, l.colourBuffer)] },
       { mode := GL_TRIANGLES, first := 0, count := pyramidVertexData.length / 3,
         attribs := [(0, l.pyramidVertex), (1, l.colourBuffer)] }] ∧
    (frame env l input a st).2.enabledAttribs = [] ∧
    (frame env l input a st).2.buffers = st.buffers := by
  by_cases h : input.frameEndTime - input.frameStartTime < frameLimit
  · simp [frame, h, glClear, glUseProgram, glEnableVertexAttribArray, glBindBuffer,
      glVertexAttribPointer, glUniformMatrix4fv, glDrawArrays, glDisableVertexAttribArray,
      glfwSwapBuffers, sleep_for, glfwPollEvents, record, hcube, hpyramid, hcolour, henabled,
      List.lookup]
  · simp [frame, h, glClear, glUseProgram, glEnableVertexAttribArray, glBindBuffer,
      glVertexAttribPointer, glUniformMatrix4fv, glDrawArrays, glDisableVertexAttribArray,
      glfwSwapBuffers, sleep_for, glfwPollEvents, record, hcube, hpyramid, hcolour, henabled,
      List.lookup]

set_option maxHeartbeats 1000000 in
theorem setup_ok (env : Env) (h : setupSucceeds env) :
    (setup env).1 = .ok
      { vertexArrayID := 1, programID := 1, mvpID := env.uniformLocation 1 "mvp",
        view := .lookAt (0, 5, -20) (0, 0, 0) (0, 1, 0),
        projection := .perspective (radians 75)
          (roundF32 ((windowWidth : ℚ) / (windowHeight : ℚ))) (roundF32 (1 / 10)) 100,
        cubeVertex := 1, pyramidVertex := 2, colourBuffer := 3 } ∧
    (setup env).2.buffers = [1, 2, 3] ∧
    (setup env).2.enabledAttribs = [] ∧
    (setup env).2.calls.filter isReleaseCall = [] ∧
    (setup env).2.calls.filter isCreateCall =
      [.glfwCreateWindow windowWidth windowHeight "OpenGLTest", .glGenVertexArrays 1,
       .glCreateProgram 1, .glGenBuffers 1, .glGenBuffers 2, .glGenBuffers 3] := by
  obtain ⟨h1, h2, h3, h4, h5, h6⟩ := h
  simp only [compiledStages] at h6
  simp [setup, glfwSetErrorCallback, glfwInit, glfwWindowHint, glfwCreateWindow,
    glfwMakeContextCurrent, glewInit, glEnable, glDepthFunc, glGenVertexArrays,
    glBindVertexArray, glCreateProgram, glCreateShader, CompileShader, LinkShaders,
    glShaderSource, glCompileShader, glGetShaderiv, shaderInfoOf, attachAll, detachDeleteAll,
    glAttachShader, glLinkProgram, glGetProgramiv, programInfoOf, glDetachShader,
    glDeleteShader, isAttached, stagesOf, glGetUniformLocation, glGenBuffers, glBindBuffer,
    glBufferData, glClearColor, record, GLState.initial, List.lookup, GL_COMPILE_STATUS,
    GL_INFO_LOG_LENGTH, GL_LINK_STATUS, h1, h2, h3, h4, h5, h6, isReleaseCall, isCreateCall]

set_option maxHeartbeats 1000000 in
theorem setup_fst (env : Env) : (setup env).1 = setupOutcome env := by
  unfold setupOutcome
  cases h1 : env.glfwInitError with
  | some p => simp [setup, glfwSetErrorCallback, glfwInit, record, h1]
  | none =>
    cases h2 : env.glfwCreateWindowError with
    | some p =>
      simp [setup, glfwSetErrorCallback, glfwInit, glfwWindowHint, glfwCreateWindow, record,
        h1, h2]
    | none =>
      by_cases h3 : env.glewInitResult = GLEW_OK
      · by_cases h4 : (env.compile GL_VERTEX_SHADER vertexShaderCode).logLength = 0
        · by_cases h5 : (env.compile GL_FRAGMENT_SHADER fragmentShaderCode).logLength = 0
          · by_cases h6 : (env.link (compiledStages env)).logLength = 0
            · have := (setup_ok env ⟨h1, h2, h3, h4, h5, h6⟩).1
              simp [h3, h4, h5, h6, this, runLocals]
            · simp only [compiledStages] at h6
              simp [setup, glfwSetErrorCallback, glfwInit, glfwWindowHint, glfwCreateWindow,
                glfwMakeContextCurrent, glewInit, glEnable, glDepthFunc, glGenVertexArrays,
                glBindVertexArray, glCreateProgram, glCreateShader, CompileShader, LinkShaders,
                glShaderSource, glCompileShader, glGetShaderiv, shaderInfoOf, attachAll,
                glAttachShader, glLinkProgram, glGetProgramiv, programInfoOf,
                glGetProgramInfoLog, stagesOf, record, GLState.initial, List.lookup,
                GL_COMPILE_STATUS, GL_INFO_LOG_LENGTH, GL_LINK_STATUS, h1, h2, h3, h4, h5, h6,
                compiledStages, linkErrorText]
          · simp [setup, glfwSetErrorCallback, glfwInit, glfwWindowHint, glfwCreateWindow,
              glfwMakeContextCurrent, glewInit, glEnable, glDepthFunc, glGenVertexArrays,
              glBindVertexArray, glCreateProgram, glCreateShader, CompileShader,
              glShaderSource, glCompileShader, glGetShaderiv, glGetShaderInfoLog, shaderInfoOf,
              record, GLState.initial, List.lookup,
              GL_COMPILE_STATUS, GL_INFO_LOG_LENGTH, h1, h2, h3, h4, h5, compileErrorText]
        · simp [setup, glfwSetErrorCallback, glfwInit, glfwWindowHint, glfwCreateWindow,
            glfwMakeContextCurrent, glewInit, glEnable, glDepthFunc, glGenVertexArrays,
            glBindVertexArray, glCreateProgram, glCreateShader, CompileShader,
            glShaderSource, glCompileShader, glGetShaderiv, glGetShaderInfoLog, shaderInfoOf,
            record, GLState.initial, List.lookup,
            GL_COMPILE_STATUS, GL_INFO_LOG_LENGTH, h1, h2, h3, h4, compileErrorText]
      · simp [setup, glfwSetErrorCallback, glfwInit, glfwWindowHint, glfwCreateWindow,
          glfwMakeContextCurrent, glewInit, record, h1, h2, h3]

/-! ### The loop as a whole -/

theorem frame_calls_filter (env : Env) (l : Locals) (input : FrameInput) (a : ℚ)
    (st : GLState) :
    (frame env l input a st).2.calls.filter isReleaseCall = st.calls.filter isReleaseCall ∧
    (frame env l input a st).2.calls.filter isCreateCall = st.calls.filter isCreateCall ∧
    (frame env l input a st).2.buffers = st.buffers := by
  by_cases h : input.frameEndTime - input.frameStartTime < frameLimit
  · simp [frame, h, glClear, glUseProgram, glEnableVertexAttribArray, glBindBuffer,
      glVertexAttribPointer, glUniformMatrix4fv, glDrawArrays, glDisableVertexAttribArray,
      glfwSwapBuffers, sleep_for, glfwPollEvents, record, isReleaseCall, isCreateCall]
  · simp [frame, h, glClear, glUseProgram, glEnableVertexAttribArray, glBindBuffer,
      glVertexAttribPointer, glUniformMatrix4fv, glDrawArrays, glDisableVertexAttribArray,
      glfwSwapBuffers, sleep_for, glfwPollEvents, record, isReleaseCall, isCreateCall]

theorem renderLoop_calls_filter (env : Env) (l : Locals) (frames : List FrameInput) (a : ℚ)
    (st : GLState) :
    (renderLoop env l frames a st).2.calls.filter isReleaseCall =
      st.calls.filter isReleaseCall ∧
    (renderLoop env l frames a st).2.calls.filter isCreateCall =
      st.calls.filter isCreateCall ∧
    (renderLoop env l frames a st).2.buffers = st.buffers := by
  induction frames generalizing a st with
  | nil => simp [renderLoop, glfwWindowShouldClose, record, isReleaseCall, isCreateCall]
  | cons input rest ih =>
    unfold renderLoop
    by_cases h1 : input.windowShouldClose = 0
    · by_cases h2 : input.escapeKey = GLFW_PRESS
      · simp [h1, h2, glfwWindowShouldClose, glfwGetKey, record, isReleaseCall, isCreateCall]
      · simp only [h1, h2, ne_eq, not_false_eq_true, if_true]
        obtain ⟨i1, i2, i3⟩ := ih (frame env l input a
          (glfwGetKey GLFW_KEY_ESCAPE (glfwWindowShouldClose st))).1
          (frame env l input a (glfwGetKey GLFW_KEY_ESCAPE (glfwWindowShouldClose st))).2
        obtain ⟨f1, f2, f3⟩ := frame_calls_filter env l input a
          (glfwGetKey GLFW_KEY_ESCAPE (glfwWindowShouldClose st))
        refine ⟨?_, ?_, ?_⟩
        · rw [i1, f1]; simp [glfwWindowShouldClose, glfwGetKey, record, isReleaseCall]
        · rw [i2, f2]; simp [glfwWindowShouldClose, glfwGetKey, record, isCreateCall]
        · rw [i3, f3]; rfl
    · simp [h1, glfwWindowShouldClose, record, isReleaseCall, isCreateCall]

theorem renderLoop_draws (env : Env) (l : Locals) (frames : List FrameInput) (a : ℚ)
    (st : GLState)
    (hcube : l.cubeVertex ∈ st.buffers) (hpyramid : l.pyramidVertex ∈ st.buffers)
    (hcolour : l.colourBuffer ∈ st.buffers) (henabled : st.enabledAttribs = []) :
    (renderLoop env l frames a st).2.draws = st.draws ++
      (List.replicate (iterations frames)
        [DrawRecord.mk GL_TRIANGLES 0 (cubeVertexData.length / 3)
           [(0, l.cubeVertex), (1, l.colourBuffer)],
         DrawRecord.mk GL_TRIANGLES 0 (pyramidVertexData.length / 3)
           [(0, l.pyramidVertex), (1, l.colourBuffer)]]).flatten := by
  induction frames generalizing a st with
  | nil => simp [renderLoop, iterations, glfwWindowShouldClose, record]
  | cons input rest ih =>
    unfold renderLoop iterations
    by_cases h1 : input.windowShouldClose = 0
    · by_cases h2 : input.escapeKey = GLFW_PRESS
      · simp [h1, h2, glfwWindowShouldClose, glfwGetKey, record]
      · simp only [h1, h2, ne_eq, not_false_eq_true, if_true, and_self]
        obtain ⟨f1, f2, f3⟩ := frame_draws env l input a
          (glfwGetKey GLFW_KEY_ESCAPE (glfwWindowShouldClose st)) hcube hpyramid hcolour henabled
        rw [ih _ _ (by rw [f3]; exact hcube) (by rw [f3]; exact hpyramid)
          (by rw [f3]; exact hcolour) f2, f1]
        simp [List.replicate_succ, glfwWindowShouldClose, glfwGetKey, record]
    · simp [h1, glfwWindowShouldClose, record]

/-! ### `run` and `main` -/

theorem run_fst (env : Env) :
    (run env).1 = match setupOutcome env with
      | .ok _ => .ok ()
      | .error e => .error e := by
  unfold run
  rw [← setup_fst]
  rcases setup env with ⟨r, st⟩
  cases r <;> rfl

theorem run_ok_iff (env : Env) : (run env).1 = .ok () ↔ setupSucceeds env := by
  rw [run_fst]
  unfold setupOutcome setupSucceeds
  cases h1 : env.glfwInitError with
  | some p => simp
  | none =>
    cases h2 : env.glfwCreateWindowError with
    | some p => simp
    | none =>
      by_cases h3 : env.glewInitResult = GLEW_OK <;>
      by_cases h4 : (env.compile GL_VERTEX_SHADER vertexShaderCode).logLength = 0 <;>
      by_cases h5 : (env.compile GL_FRAGMENT_SHADER fragmentShaderCode).logLength = 0 <;>
      by_cases h6 : (env.link (compiledStages env)).logLength = 0 <;>
      simp [h3, h4, h5, h6]

theorem run_snd (env : Env) (h : setupSucceeds env) :
    (run env).2 = teardown (runLocals env)
      (renderLoop env (runLocals env) env.frames 0
        (glfwSetInputMode GLFW_STICKY_KEYS GL_TRUE (setup env).2)).2 := by
  have h1 := (setup_ok env h).1
  unfold run
  revert h1
  rcases setup env with ⟨r, st⟩
  intro h1
  simp only at h1
  subst h1
  rfl

theorem glDeleteProgram_calls (p : GLuint) (st : GLState) :
    (glDeleteProgram p st).calls = st.calls ++ [.glDeleteProgram p] ∧
    (glDeleteProgram p st).buffers = st.buffers := by
  unfold glDeleteProgram record; dsimp only; split_ifs <;> exact ⟨rfl, rfl⟩

theorem teardown_calls (l : Locals) (st : GLState) :
    (teardown l st).calls = st.calls ++
      [.glDeleteBuffers l.cubeVertex, .glDeleteBuffers l.pyramidVertex,
       .glDeleteBuffers l.colourBuffer, .glDeleteProgram l.programID,
       .glDeleteVertexArrays l.vertexArrayID, .glfwTerminate] ∧
    (teardown l st).buffers =
      ((st.buffers.filter (fun b => b ≠ l.cubeVertex)).filter
        (fun b => b ≠ l.pyramidVertex)).filter (fun b => b ≠ l.colourBuffer) ∧
    (teardown l st).windowOpen = false ∧ (teardown l st).contextCurrent = false := by
  unfold teardown
  refine ⟨?_, ?_, rfl, rfl⟩
  · simp [glfwTerminate, glDeleteVertexArrays, glDeleteProgram_calls, glDeleteBuffers, record]
  · simp [glfwTerminate, glDeleteVertexArrays, glDeleteProgram_calls, glDeleteBuffers, record]

/-! ### Further facts used by the claims -/

theorem CompileShader_of_report (env : Env) (shaderID : GLuint) (shaderCode : String)
    (st : GLState) (info : InfoResult)
    (hrep : compileReport env shaderID shaderCode st = some info) :
    (CompileShader env shaderID shaderCode st).1 =
      if info.logLength ≠ 0 then .error (compileErrorText info) else .ok () := by
  rw [CompileShader_fst, hrep]

theorem what_compileErrorText (info : InfoResult)
    (hconf : info.logLength = info.log.length + 1) (hlog : ∀ c ∈ info.log, c ≠ NUL) :
    what (compileErrorText info) =
      "Shader Compilation Failed (" ++ toString info.status ++ "): " ++ String.mk info.log := by
  unfold compileErrorText
  rw [hconf, writeInfoLog_conformant]
  exact what_message "Shader Compilation Failed (" info.status info.log (by decide) hlog

set_option maxHeartbeats 1000000 in
theorem setup_state (env : Env) (h : setupSucceeds env) :
    (setup env).2.shaders = [] ∧ (setup env).2.attached = [] ∧
    (setup env).2.programs = [1] ∧ (setup env).2.draws = [] ∧
    (setup env).2.bufferData =
      [(3, colourBufferData), (2, pyramidVertexData), (1, cubeVertexData)] := by
  obtain ⟨h1, h2, h3, h4, h5, h6⟩ := h
  simp only [compiledStages] at h6
  simp [setup, glfwSetErrorCallback, glfwInit, glfwWindowHint, glfwCreateWindow,
    glfwMakeContextCurrent, glewInit, glEnable, glDepthFunc, glGenVertexArrays,
    glBindVertexArray, glCreateProgram, glCreateShader, CompileShader, LinkShaders,
    glShaderSource, glCompileShader, glGetShaderiv, shaderInfoOf, attachAll, detachDeleteAll,
    glAttachShader, glLinkProgram, glGetProgramiv, programInfoOf, glDetachShader,
    glDeleteShader, isAttached, stagesOf, glGetUniformLocation, glGenBuffers, glBindBuffer,
    glBufferData, glClearColor, record, GLState.initial, List.lookup, GL_COMPILE_STATUS,
    GL_INFO_LOG_LENGTH, GL_LINK_STATUS, GL_ARRAY_BUFFER, h1, h2, h3, h4, h5, h6]

theorem teardown_draws (l : Locals) (st : GLState) : (teardown l st).draws = st.draws := by
  unfold teardown glfwTerminate glDeleteVertexArrays glDeleteProgram glDeleteBuffers record
  dsimp only
  split_ifs <;> rfl

theorem run_draws (env : Env) (h : setupSucceeds env) :
    (run env).2.draws =
      (List.replicate (iterations env.frames)
        [DrawRecord.mk GL_TRIANGLES 0 36 [(0, 1), (1, 3)],
         DrawRecord.mk GL_TRIANGLES 0 12 [(0, 2), (1, 3)]]).flatten := by
  obtain ⟨-, s2, s3, -, -⟩ := setup_ok env h
  obtain ⟨-, -, -, s4, -⟩ := setup_state env h
  obtain ⟨hc, hp, -⟩ := vertexData_lengths
  have hd := renderLoop_draws env (runLocals env) env.frames 0
    (glfwSetInputMode GLFW_STICKY_KEYS GL_TRUE (setup env).2)
    (by show (1 : GLuint) ∈ (setup env).2.buffers; rw [s2]; decide)
    (by show (2 : GLuint) ∈ (setup env).2.buffers; rw [s2]; decide)
    (by show (3 : GLuint) ∈ (setup env).2.buffers; rw [s2]; decide) s3
  rw [run_snd env h, teardown_draws, hd, hc, hp]
  show (setup env).2.draws ++ _ = _
  rw [s4]
  rfl

theorem count_eq_count_filter (p : GLCall → Bool) (c : GLCall) (hc : p c = true)
    (calls : List GLCall) : calls.count c = (calls.filter p).count c :=
  (List.count_filter hc).symm

/-! ## The claims -/

/-- C1 (as amended).  When the driver reports the compile as failed (`GL_COMPILE_STATUS` is
`GL_FALSE`) and reports a non-zero `GL_INFO_LOG_LENGTH`, `CompileShader` throws; the
`what_arg` is `Shader Compilation Failed (<status>): ` followed by the log buffer, and for a
driver whose reported length is the length of its NUL-free log plus the terminator, `what()`
is that head followed by exactly the log text.  When the reported length is 0,
`CompileShader` returns normally although the status is `GL_FALSE`. -/
theorem CompileShader_failed_status (env : Env) (shaderID : GLuint) (shaderCode : String)
    (st : GLState) (info : InfoResult)
    (hrep : compileReport env shaderID shaderCode st = some info)
    (hfailed : info.status = GL_FALSE) :
    (info.logLength ≠ 0 →
      (CompileShader env shaderID shaderCode st).1 = .error (compileErrorText info) ∧
      (info.logLength = info.log.length + 1 → (∀ c ∈ info.log, c ≠ NUL) →
        what (compileErrorText info) =
          "Shader Compilation Failed (" ++ toString GL_FALSE ++ "): "
            ++ String.mk info.log)) ∧
    (info.logLength = 0 → (CompileShader env shaderID shaderCode st).1 = .ok ()) := by
  rw [CompileShader_of_report env shaderID shaderCode st info hrep]
  constructor
  · intro hlen
    refine ⟨by simp [hlen], ?_⟩
    intro hconf hlog
    rw [← hfailed]
    exact what_compileErrorText info hconf hlog
  · intro hlen
    simp [hlen]

/-- C1, witness: a driver that rejects the vertex stage with the log `bad`. -/
theorem CompileShader_failed_status_witness :
    (CompileShader rejectingEnv 2 vertexShaderCode stageState).1 =
        .error (compileErrorText ⟨GL_FALSE, 4, ['b', 'a', 'd']⟩) ∧
      what (compileErrorText ⟨GL_FALSE, 4, ['b', 'a', 'd']⟩) =
        "Shader Compilation Failed (" ++ toString GL_FALSE ++ "): "
          ++ String.mk ['b', 'a', 'd'] :=
  let h := (CompileShader_failed_status rejectingEnv 2 vertexShaderCode stageState
    ⟨GL_FALSE, 4, ['b', 'a', 'd']⟩ (by decide) (by decide)).1 (by decide)
  ⟨h.1, h.2 (by decide) (by decide)⟩

/-- C1, counterexample: the driver reports the compile of shader 2 as failed
(`GL_COMPILE_STATUS` is `GL_FALSE`) with an info log of length 0, and `CompileShader`
returns normally. -/
theorem CompileShader_silent_failure :
    compileReport silentFailEnv 2 vertexShaderCode stageState = some ⟨GL_FALSE, 0, []⟩ ∧
      (CompileShader silentFailEnv 2 vertexShaderCode stageState).1 = .ok () := by
  constructor
  · decide
  · rfl

/-- C2.  `CompileShader` throws exactly when the driver reports a non-zero
`GL_INFO_LOG_LENGTH` for the shader, and returns normally exactly when the reported length is
0 (a name that is not a shader gets no report, and the variable keeps its initial 0).  When it
throws, the `what_arg` is `Shader Compilation Failed (<status>): ` followed by the log buffer,
and for a driver whose reported length is the length of its NUL-free log plus the terminator
the message `what()` is `Shader Compilation Failed (<status>): <log>` with the whole log. -/
theorem CompileShader_throws_iff_log_nonempty (env : Env) (shaderID : GLuint)
    (shaderCode : String) (st : GLState) :
    ((∃ e, (CompileShader env shaderID shaderCode st).1 = .error e) ↔
        ∃ info, compileReport env shaderID shaderCode st = some info ∧ info.logLength ≠ 0) ∧
    ((CompileShader env shaderID shaderCode st).1 = .ok () ↔
        ∀ info, compileReport env shaderID shaderCode st = some info → info.logLength = 0) ∧
    (∀ info, compileReport env shaderID shaderCode st = some info → info.logLength ≠ 0 →
        (CompileShader env shaderID shaderCode st).1 = .error (compileErrorText info) ∧
        (info.logLength = info.log.length + 1 → (∀ c ∈ info.log, c ≠ NUL) →
          what (compileErrorText info) =
            "Shader Compilation Failed (" ++ toString info.status ++ "): "
              ++ String.mk info.log)) := by
  rw [CompileShader_fst]
  cases hrep : compileReport env shaderID shaderCode st with
  | none => simp
  | some info =>
    by_cases hlen : info.logLength = 0
    · simp [hlen]
    · simp only [hlen, ne_eq, not_false_eq_true, if_true]
      refine ⟨by simp [hlen], by simp [hlen], ?_⟩
      intro info' hinfo' hlen'
      cases Option.some.inj hinfo'
      exact ⟨rfl, what_compileErrorText info⟩

/-- C2, witness: a driver that accepts the fragment stage but leaves the log `bad`. -/
theorem CompileShader_throws_iff_log_nonempty_witness :
    (CompileShader warningEnv 3 fragmentShaderCode stageState).1 =
        .error (compileErrorText ⟨GL_TRUE, 4, ['b', 'a', 'd']⟩) ∧
      what (compileErrorText ⟨GL_TRUE, 4, ['b', 'a', 'd']⟩) =
        "Shader Compilation Failed (" ++ toString GL_TRUE ++ "): "
          ++ String.mk ['b', 'a', 'd'] :=
  let h := (CompileShader_throws_iff_log_nonempty warningEnv 3 fragmentShaderCode
    stageState).2.2 ⟨GL_TRUE, 4, ['b', 'a', 'd']⟩ (by decide) (by decide)
  ⟨h.1, h.2 (by decide) (by decide)⟩

/-- C3.  For a live program and a list of live stages none of which is attached to another
program, when the driver reports an empty linker log `LinkShaders` returns normally and:
every stage of the list is attached to the program in the state the linker works on; after
the attach calls, the link and the two queries it issues, per entry of the list, one
`glDetachShader` and one `glDeleteShader` and nothing else (so each handle is detached and
deleted as often as it occurs in the list: once when the handles are distinct); on return no
stage of the list is attached to the program or alive; the program is alive and no
`glDeleteProgram` was issued.  In `run` the call leaves no shader and no attachment. -/
theorem LinkShaders_success_releases_stages (env : Env) (programID : GLuint)
    (shaderIDs : List GLuint) (st : GLState)
    (hprogram : programID ∈ st.programs)
    (hstages : ∀ s ∈ shaderIDs, s ∈ st.shaders)
    (hfree : ∀ s ∈ shaderIDs, ∀ q, (q, s) ∈ st.attached → q = programID)
    (hlog : ∀ info, linkReport env programID shaderIDs st = some info → info.logLength = 0) :
    (LinkShaders env programID shaderIDs st).1 = .ok () ∧
    (∀ s ∈ shaderIDs, (programID, s) ∈ (attachAll programID shaderIDs st).attached) ∧
    linkReport env programID shaderIDs st =
      some (env.link (stagesOf (attachAll programID shaderIDs st) programID)) ∧
    (LinkShaders env programID shaderIDs st).2.calls =
      st.calls ++ linkCalls programID shaderIDs ++ releaseCalls programID shaderIDs ∧
    (∀ s, (releaseCalls programID shaderIDs).count (.glDetachShader programID s)
        = shaderIDs.count s ∧
      (releaseCalls programID shaderIDs).count (.glDeleteShader s) = shaderIDs.count s) ∧
    (shaderIDs.Nodup → ∀ s ∈ shaderIDs,
      (releaseCalls programID shaderIDs).count (.glDetachShader programID s) = 1 ∧
      (releaseCalls programID shaderIDs).count (.glDeleteShader s) = 1) ∧
    (∀ s ∈ shaderIDs, (programID, s) ∉ (LinkShaders env programID shaderIDs st).2.attached ∧
      s ∉ (LinkShaders env programID shaderIDs st).2.shaders) ∧
    programID ∈ (LinkShaders env programID shaderIDs st).2.programs ∧
    GLCall.glDeleteProgram programID ∉
      linkCalls programID shaderIDs ++ releaseCalls programID shaderIDs ∧
    (setupSucceeds env → (setup env).2.shaders = [] ∧ (setup env).2.attached = [] ∧
      (setup env).2.programs = [1]) := by
  obtain ⟨hc, ha, hs, hpr⟩ := linkedState_fields env programID shaderIDs st
  have hrep : linkReport env programID shaderIDs st =
      some (env.link (stagesOf (attachAll programID shaderIDs st) programID)) := by
    simp [linkReport, hprogram]
  have hzero := hlog _ hrep
  have heq : LinkShaders env programID shaderIDs st =
      (.ok (), detachDeleteAll programID shaderIDs (linkedState env programID shaderIDs st)) := by
    rw [LinkShaders_eq, hrep]; simp [hzero]
  rw [heq]
  refine ⟨rfl, ?_, hrep, ?_, ?_, ?_, ?_, ?_, ?_, ?_⟩
  · intro s hs'
    exact attachAll_attached_mem programID shaderIDs st hprogram s hs' (hstages s hs')
  · simp [detachDeleteAll_calls, hc]
  · intro s
    exact ⟨count_releaseCalls_detach _ _ _, count_releaseCalls_delete _ _ _⟩
  · intro hnodup s hs'
    rw [count_releaseCalls_detach, count_releaseCalls_delete]
    exact ⟨List.count_eq_one_of_mem hnodup hs', List.count_eq_one_of_mem hnodup hs'⟩
  · apply detachDeleteAll_released
    intro s hs' q hq
    rw [ha] at hq
    rcases attachAll_attached_inv programID shaderIDs st _ hq with h | h
    · exact hfree s hs' q h
    · exact h.1
  · simp only [detachDeleteAll_programs, hpr]; exact hprogram
  · simp [linkCalls, releaseCalls]
  · intro hsetup
    obtain ⟨h1, h2, h3, -, -⟩ := setup_state env hsetup
    exact ⟨h1, h2, h3⟩

/-- C3, witness: the call `run` makes, program 1 with the stages 2 and 3. -/
theorem LinkShaders_success_releases_stages_witness :
    (LinkShaders quietEnv 1 [2, 3] stageState).1 = .ok () ∧
    (∀ s ∈ [2, 3], (1, s) ∉ (LinkShaders quietEnv 1 [2, 3] stageState).2.attached ∧
      s ∉ (LinkShaders quietEnv 1 [2, 3] stageState).2.shaders) ∧
    1 ∈ (LinkShaders quietEnv 1 [2, 3] stageState).2.programs :=
  let h := LinkShaders_success_releases_stages quietEnv 1 [2, 3] stageState
    (by decide) (by decide) (fun _ _ _ hq => absurd hq (List.not_mem_nil _))
    (fun _ hinfo => by cases hinfo; rfl)
  ⟨h.1, h.2.2.2.2.2.2.1, h.2.2.2.2.2.2.2.1⟩

/-- C4.  `main` returns `EXIT_SUCCESS`, which is 0, exactly when `run` returns without an
exception, and then writes nothing to `stderr`.  When `run` throws, `main` writes
`Fatal Death: <what()>` and a newline to `stderr` and returns `EXIT_FAILURE`, which is not 0.
`run` returns without an exception exactly when no step before the loop raises one, and
otherwise throws the exception of the first step that does (GLFW initialisation, window
creation, GLEW initialisation, either compile, the link). -/
theorem main_exit_code (env : Env) :
    ((main env).1 = EXIT_SUCCESS ↔ (run env).1 = .ok ()) ∧
    EXIT_SUCCESS = 0 ∧
    ((run env).1 = .ok () → main env = (0, "")) ∧
    (∀ e, (run env).1 = .error e →
      main env = (EXIT_FAILURE, "Fatal Death: " ++ what e ++ "\n") ∧ (main env).1 ≠ 0) ∧
    ((run env).1 = .ok () ↔ setupSucceeds env) ∧
    (run env).1 = (match setupOutcome env with
      | .ok _ => .ok ()
      | .error e => .error e) := by
  refine ⟨?_, rfl, ?_, ?_, run_ok_iff env, run_fst env⟩
  · unfold main
    rcases run env with ⟨r, st⟩
    cases r with
    | ok u => simp
    | error e => simp [EXIT_FAILURE, EXIT_SUCCESS]
  · unfold main
    rcases run env with ⟨r, st⟩
    intro h
    simp only at h
    subst h
    rfl
  · unfold main
    rcases run env with ⟨r, st⟩
    intro e h
    simp only at h
    subst h
    exact ⟨rfl, by simp [EXIT_FAILURE]⟩

/-- C4, witness: the driver rejects the vertex stage. -/
theorem main_exit_code_witness :
    main rejectingEnv =
        (EXIT_FAILURE, "Fatal Death: " ++
          what (compileErrorText ⟨GL_FALSE, 4, ['b', 'a', 'd']⟩) ++ "\n") ∧
      (main rejectingEnv).1 ≠ 0 :=
  (main_exit_code rejectingEnv).2.2.2.1 (compileErrorText ⟨GL_FALSE, 4, ['b', 'a', 'd']⟩)
    (by rfl)

/-- C5 (as amended).  Starting from `rotationAngle = 0.f`, after the loop has made `n` passes
the accumulator holds `min n 2^24`: exactly `n` for every `n ≤ 16777216`, and 16777216 from
then on, since 16777217 is not a `float` and `16777216.f + 1.f` rounds back to 16777216. -/
theorem rotationAngle_after_iterations (env : Env) (l : Locals) (frames : List FrameInput)
    (st : GLState) :
    (renderLoop env l frames 0 st).1 = ((min (iterations frames) (2 ^ 24) : ℕ) : ℚ) := by
  rw [renderLoop_fst, increment_iterate]

/-- C5, counterexample: after `2^24 + 1` passes `rotationAngle` is 16777216, not
`(2^24 + 1) * 1.0`; it did not increase in the last pass. -/
theorem rotationAngle_stops_at_two_pow_24 :
    iterations (List.replicate (2 ^ 24 + 1) runningFrame) = 2 ^ 24 + 1 ∧
    (renderLoop quietEnv sampleLocals (List.replicate (2 ^ 24 + 1) runningFrame) 0
        GLState.initial).1 = 16777216 ∧
    (renderLoop quietEnv sampleLocals (List.replicate (2 ^ 24 + 1) runningFrame) 0
        GLState.initial).1 ≠ ((2 ^ 24 + 1 : ℕ) : ℚ) * 1 ∧
    (renderLoop quietEnv sampleLocals (List.replicate (2 ^ 24 + 1) runningFrame) 0
        GLState.initial).1 =
      (renderLoop quietEnv sampleLocals (List.replicate (2 ^ 24) runningFrame) 0
        GLState.initial).1 := by
  have h : (renderLoop quietEnv sampleLocals (List.replicate (2 ^ 24 + 1) runningFrame) 0
        GLState.initial).1 = 16777216 := by
    rw [renderLoop_fst, iterations_replicate, increment_iterate]
    norm_num
  have h' : (renderLoop quietEnv sampleLocals (List.replicate (2 ^ 24) runningFrame) 0
        GLState.initial).1 = 16777216 := by
    rw [renderLoop_fst, iterations_replicate, increment_iterate]
    norm_num
  refine ⟨iterations_replicate _, h, ?_, ?_⟩
  · rw [h]; norm_num
  · rw [h, h']

/-- C6.  With a `std::sin` and a `std::cos` whose values lie in `[-1, 1]`, for every value of
`rotationAngle` the `float` `scaleMag` lies in `[1, 7]` (so it is positive) and the `float`
`zMag` lies in `[-5, 15]`. -/
theorem scaleMag_zMag_bounds (env : Env)
    (hsin : ∀ x, -1 ≤ env.sin x ∧ env.sin x ≤ 1)
    (hcos : ∀ x, -1 ≤ env.cos x ∧ env.cos x ≤ 1) (rotationAngle : ℚ) :
    1 ≤ scaleMag env rotationAngle ∧ scaleMag env rotationAngle ≤ 7 ∧
    -5 ≤ zMag env rotationAngle ∧ zMag env rotationAngle ≤ 15 ∧
    0 < scaleMag env rotationAngle := by
  obtain ⟨hs1, hs2⟩ := hsin (radians rotationAngle)
  obtain ⟨hc1, hc2⟩ := hcos (radians rotationAngle)
  have a1 := roundF32_mem_Icc (env.sin (radians rotationAngle) * 3) (-3) 3
    (by push_cast; linarith) (by push_cast; linarith)
    (by rw [abs_lt]; constructor <;> norm_num <;> linarith)
  have a2 := roundF32_mem_Icc (roundF32 (env.sin (radians rotationAngle) * 3) + 4) 1 7
    (by push_cast at a1 ⊢; linarith [a1.1]) (by push_cast at a1 ⊢; linarith [a1.2])
    (by push_cast at a1; rw [abs_lt]; constructor <;> norm_num <;> linarith [a1.1, a1.2])
  have b1 := roundF32_mem_Icc (env.cos (radians rotationAngle) * 10) (-10) 10
    (by push_cast; linarith) (by push_cast; linarith)
    (by rw [abs_lt]; constructor <;> norm_num <;> linarith)
  have b2 := roundF32_mem_Icc (roundF32 (env.cos (radians rotationAngle) * 10) + 5) (-5) 15
    (by push_cast at b1 ⊢; linarith [b1.1]) (by push_cast at b1 ⊢; linarith [b1.2])
    (by push_cast at b1; rw [abs_lt]; constructor <;> norm_num <;> linarith [b1.1, b1.2])
  unfold scaleMag zMag
  push_cast at a2 b2
  exact ⟨a2.1, a2.2, b2.1, b2.2, by linarith [a2.1]⟩

/-- C6, witness: a math library whose sine is 0 and cosine is 1 everywhere, at 90 degrees. -/
theorem scaleMag_zMag_bounds_witness :
    1 ≤ scaleMag quietEnv 90 ∧ scaleMag quietEnv 90 ≤ 7 ∧
    -5 ≤ zMag quietEnv 90 ∧ zMag quietEnv 90 ≤ 15 ∧ 0 < scaleMag quietEnv 90 :=
  scaleMag_zMag_bounds quietEnv
    (fun _ => ⟨(by decide : (-1 : ℚ) ≤ 0), (by decide : (0 : ℚ) ≤ 1)⟩)
    (fun _ => ⟨(by decide : (-1 : ℚ) ≤ 1), (by decide : (1 : ℚ) ≤ 1)⟩) 90

/-- C7.  In a pass of the loop that starts with the three buffers alive and no attribute slot
enabled, exactly two draw calls are issued, `glDrawArrays(GL_TRIANGLES, 0, 36)` and then
`glDrawArrays(GL_TRIANGLES, 0, 12)`; the first draws with the cube buffer on slot 0, the
second with the pyramid buffer on slot 0, both with the colour buffer on slot 1; 36 and 12 are
the numbers of 3-float vertices of the cube (108 floats) and the pyramid (36 floats), and the
colour data has 36 vertices, enough for either; each draw call is directly followed by the
calls disabling slots 0 and 1, and the pass ends with no slot enabled and the buffers
unchanged.  In `run` the buffers hold the three arrays and every pass of the loop draws so. -/
theorem frame_issues_two_draws (env : Env) (l : Locals) (input : FrameInput)
    (rotationAngle : ℚ) (st : GLState)
    (hcube : l.cubeVertex ∈ st.buffers) (hpyramid : l.pyramidVertex ∈ st.buffers)
    (hcolour : l.colourBuffer ∈ st.buffers) (henabled : st.enabledAttribs = []) :
    ((frame env l input rotationAngle st).2.calls.drop st.calls.length).filter isDrawCall =
      [.glDrawArrays GL_TRIANGLES 0 36, .glDrawArrays GL_TRIANGLES 0 12] ∧
    (frame env l input rotationAngle st).2.draws = st.draws ++
      [{ mode := GL_TRIANGLES, first := 0, count := 36,
         attribs := [(0, l.cubeVertex), (1, l.colourBuffer)] },
       { mode := GL_TRIANGLES, first := 0, count := 12,
         attribs := [(0, l.pyramidVertex), (1, l.colourBuffer)] }] ∧
    (cubeVertexData.length = 108 ∧ cubeVertexData.length / 3 = 36) ∧
    (pyramidVertexData.length = 36 ∧ pyramidVertexData.length / 3 = 12) ∧
    (colourBufferData.length / 3 = 36 ∧ cubeVertexData.length / 3 ≤ colourBufferData.length / 3
      ∧ pyramidVertexData.length / 3 ≤ colourBufferData.length / 3) ∧
    drawsFollowedByDisable
      ((frame env l input rotationAngle st).2.calls.drop st.calls.length) = true ∧
    (frame env l input rotationAngle st).2.enabledAttribs = [] ∧
    (frame env l input rotationAngle st).2.buffers = st.buffers ∧
    (setupSucceeds env →
      (setup env).2.bufferData =
        [(3, colourBufferData), (2, pyramidVertexData), (1, cubeVertexData)] ∧
      (run env).2.draws =
        (List.replicate (iterations env.frames)
          [DrawRecord.mk GL_TRIANGLES 0 36 [(0, 1), (1, 3)],
           DrawRecord.mk GL_TRIANGLES 0 12 [(0, 2), (1, 3)]]).flatten) := by
  obtain ⟨hc, hp, hcol⟩ := vertexData_lengths
  obtain ⟨h1, h2⟩ := frame_calls_draw env l input rotationAngle st
  obtain ⟨h3, h4, h5⟩ := frame_draws env l input rotationAngle st hcube hpyramid hcolour henabled
  rw [hc, hp] at h1 h3
  refine ⟨h1, h3, ⟨hc, by rw [hc]⟩, ⟨hp, by rw [hp]⟩, ?_, h2, h4, h5, ?_⟩
  · rw [hc, hp, hcol]
    decide
  · intro hsetup
    exact ⟨(setup_state env hsetup).2.2.2.2, run_draws env hsetup⟩

/-- C7, witness: one pass from a state that has the buffers 1, 2 and 3. -/
theorem frame_issues_two_draws_witness :
    (frame quietEnv sampleLocals runningFrame 0 bufferState).2.draws = bufferState.draws ++
      [{ mode := GL_TRIANGLES, first := 0, count := 36, attribs := [(0, 1), (1, 3)] },
       { mode := GL_TRIANGLES, first := 0, count := 12, attribs := [(0, 2), (1, 3)] }] :=
  (frame_issues_two_draws quietEnv sampleLocals runningFrame 0 bufferState
    (by decide) (by decide) (by decide) (by rfl)).2.1

/-- C8.  With `elapsed = frameEndTime - frameStartTime` in clock ticks (nanoseconds) and the
limit of 16 ms, a pass of the loop calls `sleep_for` once, with `16 ms - elapsed`, when
`elapsed < 16 ms`, and not at all otherwise; the time slept is `max 0 (16 ms - elapsed)`.
When `elapsed` is negative the pass sleeps `16 ms - elapsed`, which is more than 16 ms. -/
theorem frame_pacing_delay (env : Env) (l : Locals) (input : FrameInput) (rotationAngle : ℚ)
    (st : GLState) :
    (frame env l input rotationAngle st).2.slept =
      st.slept ++ (if input.frameEndTime - input.frameStartTime < frameLimit
        then [frameLimit - (input.frameEndTime - input.frameStartTime)] else []) ∧
    ((frame env l input rotationAngle st).2.slept.drop st.slept.length).sum =
      max 0 (frameLimit - (input.frameEndTime - input.frameStartTime)) ∧
    frameLimit = 16000000 ∧
    (input.frameEndTime - input.frameStartTime < 0 →
      (frame env l input rotationAngle st).2.slept =
        st.slept ++ [frameLimit - (input.frameEndTime - input.frameStartTime)] ∧
      frameLimit < frameLimit - (input.frameEndTime - input.frameStartTime)) := by
  have hlim : frameLimit = 16000000 := by decide
  rw [frame_slept]
  refine ⟨rfl, ?_, hlim, ?_⟩
  · by_cases h : input.frameEndTime - input.frameStartTime < frameLimit
    · simp only [h, if_true, List.drop_left, List.sum_cons, List.sum_nil, add_zero]
      rw [max_eq_right (by omega)]
    · simp only [h, if_false, List.append_nil, List.drop_length, List.sum_nil]
      rw [max_eq_left (by omega)]
  · intro hneg
    have h : input.frameEndTime - input.frameStartTime < frameLimit := by omega
    simp only [h, if_true, true_and]
    omega

/-- C8, witness: a pass during which the clock steps back by 7 ms. -/
theorem frame_pacing_delay_witness :
    (frame quietEnv sampleLocals backwardsFrame 0 bufferState).2.slept =
        bufferState.slept ++
          [frameLimit - (backwardsFrame.frameEndTime - backwardsFrame.frameStartTime)] ∧
      frameLimit <
        frameLimit - (backwardsFrame.frameEndTime - backwardsFrame.frameStartTime) :=
  (frame_pacing_delay quietEnv sampleLocals backwardsFrame 0 bufferState).2.2.2 (by decide)

/-- C9.  When `run` returns, whatever the number of passes of the loop, the release calls of
the whole run are, in this order, `glDeleteBuffers` for the cube, pyramid and colour buffers
(the names 1, 2, 3 that `glGenBuffers` returned), `glDeleteProgram` for the program,
`glDeleteVertexArrays` and `glfwTerminate`, which destroys the window and its context; each
was issued exactly once, for objects created exactly once, and on return no buffer is alive
and the window and context are gone. -/
theorem run_releases_once (env : Env) (h : (run env).1 = .ok ()) :
    (run env).2.calls.filter isReleaseCall =
      [.glDeleteBuffers 1, .glDeleteBuffers 2, .glDeleteBuffers 3, .glDeleteProgram 1,
       .glDeleteVertexArrays 1, .glfwTerminate] ∧
    (run env).2.calls.filter isCreateCall =
      [.glfwCreateWindow windowWidth windowHeight "OpenGLTest", .glGenVertexArrays 1,
       .glCreateProgram 1, .glGenBuffers 1, .glGenBuffers 2, .glGenBuffers 3] ∧
    ((run env).2.calls.count (.glDeleteBuffers 1) = 1 ∧
      (run env).2.calls.count (.glDeleteBuffers 2) = 1 ∧
      (run env).2.calls.count (.glDeleteBuffers 3) = 1 ∧
      (run env).2.calls.count (.glDeleteProgram 1) = 1 ∧
      (run env).2.calls.count .glfwTerminate = 1) ∧
    (run env).2.buffers = [] ∧
    (run env).2.windowOpen = false ∧ (run env).2.contextCurrent = false := by
  have hs := (run_ok_iff env).mp h
  obtain ⟨-, s2, -, s4, s5⟩ := setup_ok env hs
  obtain ⟨r1, r2, r3⟩ := renderLoop_calls_filter env (runLocals env) env.frames 0
    (glfwSetInputMode GLFW_STICKY_KEYS GL_TRUE (setup env).2)
  obtain ⟨t1, t2, t3, t4⟩ := teardown_calls (runLocals env)
    (renderLoop env (runLocals env) env.frames 0
      (glfwSetInputMode GLFW_STICKY_KEYS GL_TRUE (setup env).2)).2
  have i1 : (glfwSetInputMode GLFW_STICKY_KEYS GL_TRUE (setup env).2).calls.filter
      isReleaseCall = [] := by
    simp only [glfwSetInputMode, record, List.filter_append, s4]; rfl
  have i2 : (glfwSetInputMode GLFW_STICKY_KEYS GL_TRUE (setup env).2).calls.filter
      isCreateCall = [.glfwCreateWindow windowWidth windowHeight "OpenGLTest",
        .glGenVertexArrays 1, .glCreateProgram 1, .glGenBuffers 1, .glGenBuffers 2,
        .glGenBuffers 3] := by
    simp only [glfwSetInputMode, record, List.filter_append, s5]; rfl
  have i3 : (glfwSetInputMode GLFW_STICKY_KEYS GL_TRUE (setup env).2).buffers = [1, 2, 3] := s2
  have hrel : (run env).2.calls.filter isReleaseCall =
      [.glDeleteBuffers 1, .glDeleteBuffers 2, .glDeleteBuffers 3, .glDeleteProgram 1,
       .glDeleteVertexArrays 1, .glfwTerminate] := by
    rw [run_snd env hs, t1, List.filter_append, r1, i1]; rfl
  refine ⟨hrel, ?_, ?_, ?_, ?_, ?_⟩
  · rw [run_snd env hs, t1, List.filter_append, r2, i2]; rfl
  · refine ⟨?_, ?_, ?_, ?_, ?_⟩ <;>
    · rw [count_eq_count_filter isReleaseCall _ (by rfl), hrel]
      decide
  · rw [run_snd env hs, t2, r3, i3]; rfl
  · rw [run_snd env hs]; exact t3
  · rw [run_snd env hs]; exact t4

/-- C9, witness: a run in which nothing fails and the loop makes two passes. -/
theorem run_releases_once_witness :
    (run twoFrameEnv).2.calls.filter isReleaseCall =
      [.glDeleteBuffers 1, .glDeleteBuffers 2, .glDeleteBuffers 3, .glDeleteProgram 1,
       .glDeleteVertexArrays 1, .glfwTerminate] :=
  (run_releases_once twoFrameEnv (by rfl)).1

/-- C10.  `LinkShaders` throws exactly when the driver reports a non-zero
`GL_INFO_LOG_LENGTH` for the program, whatever `GL_LINK_STATUS` is.  When it throws, the calls
it has issued are the attach calls, the link, the two queries and `glGetProgramInfoLog`: no
detach and no delete; the set of live shaders is unchanged, every live stage of the list is
attached to the program and alive, and every earlier attachment is still in place. -/
theorem LinkShaders_throws_iff_log_nonempty (env : Env) (programID : GLuint)
    (shaderIDs : List GLuint) (st : GLState) :
    ((∃ e, (LinkShaders env programID shaderIDs st).1 = .error e) ↔
        ∃ info, linkReport env programID shaderIDs st = some info ∧ info.logLength ≠ 0) ∧
    (∀ info, linkReport env programID shaderIDs st = some info → info.logLength ≠ 0 →
        (LinkShaders env programID shaderIDs st).1 = .error (linkErrorText info) ∧
        (LinkShaders env programID shaderIDs st).2.calls =
          st.calls ++ linkCalls programID shaderIDs ++
            [.glGetProgramInfoLog programID info.logLength] ∧
        (LinkShaders env programID shaderIDs st).2.shaders = st.shaders ∧
        (∀ s ∈ shaderIDs, s ∈ st.shaders →
          (programID, s) ∈ (LinkShaders env programID shaderIDs st).2.attached ∧
          s ∈ (LinkShaders env programID shaderIDs st).2.shaders) ∧
        (∀ a ∈ st.attached, a ∈ (LinkShaders env programID shaderIDs st).2.attached)) := by
  obtain ⟨hc, ha, hs, hpr⟩ := linkedState_fields env programID shaderIDs st
  rw [LinkShaders_eq]
  cases hrep : linkReport env programID shaderIDs st with
  | none => simp
  | some info =>
    have hprogram : programID ∈ st.programs := by
      by_contra h
      simp [linkReport, h] at hrep
    by_cases hlen : info.logLength = 0
    · simp [hlen]
    · simp only [hlen, ne_eq, not_false_eq_true, if_true]
      refine ⟨by simp [hlen], ?_⟩
      intro info' hinfo' _
      cases Option.some.inj hinfo'
      refine ⟨rfl, by simp [record, hc], by simp [record, hs], ?_, ?_⟩
      · intro s hs1 hs2
        refine ⟨?_, by simpa [record, hs] using hs2⟩
        simp only [record, ha]
        exact attachAll_attached_mem programID shaderIDs st hprogram s hs1 hs2
      · intro a h
        simp only [record, ha]
        exact attachAll_attached_mono programID shaderIDs st a h

/-- C10, witness: the linker reports success (`GL_LINK_STATUS` is `GL_TRUE`) and leaves the
log `warn`; `LinkShaders` throws with both stages still attached and alive. -/
theorem LinkShaders_throws_iff_log_nonempty_witness :
    (LinkShaders linkWarningEnv 1 [2, 3] stageState).1 =
        .error (linkErrorText ⟨GL_TRUE, 5, ['w', 'a', 'r', 'n']⟩) ∧
    (∀ s ∈ [2, 3], s ∈ stageState.shaders →
      (1, s) ∈ (LinkShaders linkWarningEnv 1 [2, 3] stageState).2.attached ∧
      s ∈ (LinkShaders linkWarningEnv 1 [2, 3] stageState).2.shaders) :=
  let h := (LinkShaders_throws_iff_log_nonempty linkWarningEnv 1 [2, 3] stageState).2
    ⟨GL_TRUE, 5, ['w', 'a', 'r', 'n']⟩ (by decide) (by decide)
  ⟨h.1, h.2.2.2.1⟩

end SimpleOpenGLRender
